import Mathlib

/-!
# Verification of the batch experiment orchestrator

Shallow embedding, in Lean 4, of `scripts/create_batch_experiments.ts`
(the batch experiment creator of the deliberate-lab repository), together
with theorems settling the specification claims about it.

Modelling conventions:

* Remote HTTP calls are represented by explicit environment data passed to
  the functions: each call's response (success payload or thrown error
  message) is supplied by a `UnitEnv` record, one per enumerated unit.
* `Promise.all` over a list of per-unit tasks is embedded as `List.map`:
  `Promise.all` resolves to results in input order regardless of the order
  in which the individual promises settle.
* Real time in the completion poller is abstracted to ticks: the list of
  samples handed to the poller is the sequence of poll observations that
  fit before `maxWait` elapses; exhausting the list models the timeout.
* File-system writes are recorded as an ordered event list instead of
  mutating a file system.
-/

set_option autoImplicit false

namespace BatchExperiments

/-! ## Completion poller (`waitForExperimentCompletion`)

The source polls `GET /experiments/{id}/export` every `pollInterval`
milliseconds until `maxWait` elapses.  Each iteration produces one sample:

* a thrown `fetch` (connection error) or a non-OK response makes the
  iteration `continue` after sleeping, touching neither `lastMessageCount`
  nor `stableCount` — modelled by `none`;
* an OK response yields `totalMessages`, the sum of the message-list
  lengths over the cohort's chat stages — modelled by `some totalMessages`.

The list of samples is the sequence of observations made before `maxWait`
elapses; an exhausted list is the timeout (`return false`). -/

/-- One poll observation: `none` is a transport failure or non-OK response
(skipped sample), `some n` is a successful export fetch totalling `n`
messages across chat stages. -/
abbrev PollSample := Option Nat

/-- Loop of `waitForExperimentCompletion`, carrying the two mutable
variables `lastMessageCount` and `stableCount`.  On a successful sample
that is positive and equal to `lastMessageCount` the source increments
`stableCount` and returns `true` once it reaches 15; otherwise it resets
`stableCount` to 0.  Either way `lastMessageCount` becomes the sample. -/
def pollLoop : List PollSample → Nat → Nat → Bool
  | [], _, _ => false
  | sample :: rest, lastMessageCount, stableCount =>
    match sample with
    | none => pollLoop rest lastMessageCount stableCount
    | some totalMessages =>
      if 0 < totalMessages ∧ totalMessages = lastMessageCount then
        if 15 ≤ stableCount + 1 then true
        else pollLoop rest totalMessages (stableCount + 1)
      else pollLoop rest totalMessages 0

/-- `waitForExperimentCompletion`, given the samples observable before
`maxWait` elapses.  Both mutable counters start at 0. -/
def waitForExperimentCompletion (samples : List PollSample) : Bool :=
  pollLoop samples 0 0

/-- The poll loop restricted to successful samples (used to state that
failed samples are skipped without affecting the counters). -/
def pollLoopOk : List Nat → Nat → Nat → Bool
  | [], _, _ => false
  | t :: rest, lastMessageCount, stableCount =>
    if 0 < t ∧ t = lastMessageCount then
      if 15 ≤ stableCount + 1 then true
      else pollLoopOk rest t (stableCount + 1)
    else pollLoopOk rest t 0

/-! ## Data model

Lean counterparts of the TypeScript interfaces of the script.  `number`
fields holding integer counts become `Nat`; the only non-integral numeric
field, `temperature`, is carried in hundredths (0.6 ↦ 60) — no claim
depends on it and it is never even sent to the server (the request body
of `createParticipantAgent` forwards only `modelSettings.model`). -/

/-- `modelSettings` of a behavior or persona. -/
structure ModelSettings where
  model : String
  temperatureHundredths : Nat
deriving DecidableEq, Repr

/-- `FacilitatorBehavior`. -/
structure FacilitatorBehavior where
  name : String
  agentId : String
  promptContext : String
  modelSettings : ModelSettings
deriving DecidableEq, Repr

/-- `ParticipantPersona`. -/
structure ParticipantPersona where
  agentId : String
  name : String
  pronouns : String
  promptContext : String
  modelSettings : ModelSettings
deriving DecidableEq, Repr

/-- `VoiceCard`.  The source field `structure` is renamed
`structureStyle` (`structure` is a Lean keyword). -/
structure VoiceCard where
  words_per_turn : String
  turn_taking : String
  hedging : String
  hedging_phrases : List String
  register : String
  uses_contractions : Bool
  discourse_markers : List String
  backchannels : List String
  question_rate : String
  emotion_display : String
  energy : String
  repair_style : String
  structureStyle : String
  catchphrases : List String
  never_uses : List String
  voice_examples : List String
deriving DecidableEq, Repr

/-- OCEAN personality scores (1–10 in the source's documentation). -/
structure OceanScores where
  O : Nat
  C : Nat
  E : Nat
  A : Nat
  N : Nat
deriving DecidableEq, Repr

/-- `ScenarioParticipant`. -/
structure ScenarioParticipant where
  name : String
  description : String
  ocean : Option OceanScores
  voice_card : Option VoiceCard
deriving DecidableEq, Repr

/-- `Scenario`. -/
structure Scenario where
  scenario_type : String
  scenario : String
  participants : List ScenarioParticipant
  participant_count : Nat
deriving DecidableEq, Repr

/-- `config.scenario` — title/description of the default (non-file)
scenario. -/
structure ScenarioConfig where
  title : String
  description : String
  chatDurationMinutes : Option Nat
deriving DecidableEq, Repr

/-- `BatchConfig`.  `firebaseConfig` is carried by the source but never
read by the orchestrator and is omitted.  `pollIntervalMs` and
`maxWaitTimeMs` only parameterise the poller's real-time loop, which this
embedding abstracts into the per-unit sample list (see `PollSample`);
they are kept for completeness. -/
structure BatchConfig where
  apiKey : String
  baseUrl : String
  scenario : ScenarioConfig
  waitForCompletion : Bool
  pollIntervalMs : Option Nat
  maxWaitTimeMs : Option Nat
  testMode : Bool
  behaviorFilter : Option String
  excludeBehavior : Option String
  maxConcurrent : Option Nat
  outputPath : Option String
  scenariosFile : Option String
  scenarios : Option (List Scenario)
  scenarioTypeFilter : Option String
deriving DecidableEq, Repr

/-- Sender profile attached to a chat message. -/
structure MessageProfile where
  name : Option String
  avatar : Option String
  pronouns : Option String
deriving DecidableEq, Repr

/-- `timestamp` of a `ChatMessage` as returned by the export API. -/
structure MessageTimestamp where
  seconds : Nat
  nanoseconds : Nat
deriving DecidableEq, Repr

/-- `ChatMessage` — one message of the raw export payload.  The source
accesses `msg.timestamp?.seconds`, so the timestamp is optional here. -/
structure ChatMessage where
  id : String
  message : String
  timestamp : Option MessageTimestamp
  profile : MessageProfile
  type : String
  agentId : Option String
  explanation : Option String
deriving DecidableEq, Repr

/-- One normalised message of a `ConversationExport`. -/
structure ExportedMessage where
  id : String
  text : String
  timestamp : Nat
  profile : MessageProfile
  messageType : String
  agentId : Option String
deriving DecidableEq, Repr

/-- `ConversationExport` — one record per chat stage of the cohort. -/
structure ConversationExport where
  experimentId : String
  cohortId : String
  stageId : String
  messages : List ExportedMessage
deriving DecidableEq, Repr

/-- `status` of an `ExperimentResult`. -/
inductive ResultStatus where
  | success
  | error
deriving DecidableEq, Repr

/-- `ExperimentResult` — the terminal record for one unit.  The optional
TypeScript fields `error?` and `conversations?` become `Option`s: `none`
models the field being absent from the pushed object. -/
structure ExperimentResult where
  facilitatorBehavior : String
  groupSize : Nat
  experimentId : String
  cohortId : String
  status : ResultStatus
  error : Option String
  conversations : Option (List ConversationExport)
deriving DecidableEq, Repr

/-! ## Static behavior and persona tables -/

/-- `FACILITATOR_BEHAVIORS` entry `silent`. -/
def behaviorSilent : FacilitatorBehavior where
  name := "silent"
  agentId := "gemini_silent"
  promptContext := "You are Gemini, an AI assistant in a Google Meet video call where people are deciding on a restaurant.\nEveryone knows you're an AI assistant. This is a SPOKEN conversation - keep all responses SHORT (1-2 sentences max, like real speech).\n\nIMPORTANT LIMITATIONS:\n- You CANNOT search the internet, look up restaurants, or take any external actions\n- You can ONLY participate in the conversation through chat\n- Do NOT pretend to search or say \"let me look that up\" - you have no such capability\n- Only offer opinions, ask questions, or discuss based on what participants share\n\nYour role: Stay mostly silent. Only speak if directly asked or if conversation completely stalls.\nIMPORTANT: Wait for participants to start talking. Do NOT initiate the conversation.\nWhen you speak, be brief - \"That sounds good\" or \"Any other ideas?\" level responses.\n\nNATURALNESS RULES:\n- NEVER start by repeating what someone just said\n- Use contractions: \"that's\", \"I'm\", \"let's\"\n- Vary your sentence starters"
  modelSettings := ⟨"gemini-2.5-flash", 60⟩

/-- `FACILITATOR_BEHAVIORS` entry `short_responses`. -/
def behaviorShortResponses : FacilitatorBehavior where
  name := "short_responses"
  agentId := "gemini_short"
  promptContext := "You are Gemini, an AI assistant in a Google Meet video call where people are deciding on a restaurant.\nEveryone knows you're an AI assistant. This is a SPOKEN conversation - keep all responses SHORT (1-2 sentences max, like real speech).\n\nIMPORTANT LIMITATIONS:\n- You CANNOT search the internet, look up restaurants, or take any external actions\n- You can ONLY participate in the conversation through chat\n- Do NOT pretend to search or say \"let me look that up\" - you have no such capability\n- Only offer opinions, ask questions, or discuss based on what participants share\n\nYour role: Participate with brief, natural responses. Acknowledge what people say (\"Good point!\"), ask simple questions (\"What cuisine?\"), and keep things moving.\nIMPORTANT: Wait for participants to start talking. Do NOT initiate the conversation.\nALWAYS respond when someone addresses you directly or asks you a question.\nTalk like a person in a meeting, not an essay.\n\nNATURALNESS RULES:\n- NEVER start by repeating what someone just said (no \"So, Italian sounds good\" after they said Italian)\n- AVOID hollow validation like \"That sounds like a good option\" - add substance or ask a follow-up\n- Use contractions: \"that's\", \"I'm\", \"let's\" - talk casually\n- Vary openers - don't start every line with \"So,\" or \"Yes,\""
  modelSettings := ⟨"gemini-2.5-flash", 60⟩

/-- `FACILITATOR_BEHAVIORS` entry `clarifying_questions`. -/
def behaviorClarifyingQuestions : FacilitatorBehavior where
  name := "clarifying_questions"
  agentId := "gemini_clarifying"
  promptContext := "You are Gemini, an AI assistant in a Google Meet video call where people are deciding on a restaurant.\nEveryone knows you're an AI assistant. This is a SPOKEN conversation - keep all responses SHORT (1-2 sentences max, like real speech).\n\nIMPORTANT LIMITATIONS:\n- You CANNOT search the internet, look up restaurants, or take any external actions\n- You can ONLY participate in the conversation through chat\n- Do NOT pretend to search or say \"let me look that up\" - you have no such capability\n- Only offer opinions, ask questions, or discuss based on what participants share\n\nYour role: Ask clarifying questions. \"What's your budget?\", \"Any dietary restrictions?\", \"Italian or Asian?\".\nIMPORTANT: Wait for participants to start talking. Do NOT initiate the conversation.\nALWAYS respond when someone addresses you directly or asks you a question.\nHelp people understand each other through simple questions, not long explanations.\n\nNATURALNESS RULES:\n- NEVER start by repeating what someone just said\n- Ask SPECIFIC questions, not vague ones - \"What's your max budget?\" beats \"What are you thinking?\"\n- Use contractions and casual language\n- Vary your question styles - don't ask the same way every time"
  modelSettings := ⟨"gemini-2.5-flash", 70⟩

/-- `FACILITATOR_BEHAVIORS` entry `direct_fast_consensus`. -/
def behaviorDirectFastConsensus : FacilitatorBehavior where
  name := "direct_fast_consensus"
  agentId := "gemini_direct"
  promptContext := "You are Gemini, an AI assistant in a Google Meet video call where people are deciding on a restaurant.\nEveryone knows you're an AI assistant. This is a SPOKEN conversation - keep all responses SHORT (1-2 sentences max, like real speech).\n\nIMPORTANT LIMITATIONS:\n- You CANNOT search the internet, look up restaurants, or take any external actions\n- You can ONLY participate in the conversation through chat\n- Do NOT pretend to search or say \"let me look that up\" - you have no such capability\n- Only offer opinions, ask questions, or discuss based on what participants share\n\nYour role: Be direct and push for decisions. \"So we're leaning Italian?\", \"Should we just go with that?\", \"Sounds like everyone agrees!\".\nIMPORTANT: Wait for participants to start talking. Do NOT initiate the conversation.\nALWAYS respond when someone addresses you directly or asks you a question.\nMove conversations toward quick consensus.\n\nNATURALNESS RULES:\n- NEVER echo-repeat what was just said - push FORWARD instead\n- Be decisive: \"Let's do Luigi's\" beats \"That sounds like it could work\"\n- Use contractions and direct language\n- Vary how you push for consensus - don't always use the same phrases"
  modelSettings := ⟨"gemini-2.5-flash", 50⟩

/-- `FACILITATOR_BEHAVIORS` entry `explanatory`. -/
def behaviorExplanatory : FacilitatorBehavior where
  name := "explanatory"
  agentId := "gemini_explanatory"
  promptContext := "You are Gemini, an AI assistant in a Google Meet video call where people are deciding on a restaurant.\nEveryone knows you're an AI assistant. This is a SPOKEN conversation - keep responses conversational (2-3 sentences max).\n\nIMPORTANT LIMITATIONS:\n- You CANNOT search the internet, look up restaurants, or take any external actions\n- You can ONLY participate in the conversation through chat\n- Do NOT pretend to search or say \"let me look that up\" - you have no such capability\n- Only offer opinions, ask questions, or discuss based on what participants share\n\nYour role: Offer helpful context when useful based on what participants mention. Help synthesize ideas: \"So we want something quick and affordable - maybe fast casual?\"\nIMPORTANT: Wait for participants to start talking. Do NOT initiate the conversation.\nALWAYS respond when someone addresses you directly or asks you a question.\nBe helpful but still talk naturally, not like you're reading.\n\nNATURALNESS RULES:\n- NEVER start by repeating what someone just said - synthesize or add new angle\n- When summarizing, ADD a suggestion or question - don't just recap\n- Use contractions and conversational tone\n- Vary your phrasing - don't use the same synthesis pattern every time"
  modelSettings := ⟨"gemini-2.5-flash", 70⟩

/-- The five Gemini facilitator behaviors (`FACILITATOR_BEHAVIORS`). -/
def FACILITATOR_BEHAVIORS : List FacilitatorBehavior :=
  [behaviorSilent, behaviorShortResponses, behaviorClarifyingQuestions, behaviorDirectFastConsensus, behaviorExplanatory]

/-- `basePersonas` entry for Sarah. -/
def personaSarah : ParticipantPersona where
  agentId := "participant_sarah"
  name := "Sarah"
  pronouns := "she/her"
  promptContext := "You are Sarah (she/her), on a Google Meet video call deciding on a restaurant with friends. \nThere's also Gemini, an AI assistant, in the call.\nThis is SPOKEN conversation - keep responses SHORT (1-2 sentences, like real speech).\n\nYour personality: OPINIONATED foodie who HATES chain restaurants and anything \"boring\". You push hard for unique, trendy spots. \"Ugh, not another pizza place...\" \"Come on, let's try something actually interesting!\" You need convincing to accept mainstream options.\n\nDON'T AGREE TOO QUICKLY - push back if you don't love the suggestion. Ask questions, raise concerns.\n\nCONVERGENCE RULES - CRITICAL:\n- If you've already raised a concern (e.g., \"too boring\") and it was addressed, ACKNOWLEDGE it and move on. Don't repeat.\n- Do NOT ask the same question twice. If you asked for something specific and got an answer, say \"OK that works\" or \"Thanks\".\n- TIMING: Start wrapping up after ~30 messages. By 50 messages, actively push for a final decision. The conversation should END by 60-70 messages MAX.\n- If someone directly answered your concern, SAY \"that works for me\" or similar - don't ignore it.\n\nENDING - CRITICAL:\n- Your LAST message MUST include a farewell like \"bye\", \"see you\", \"later\", \"catch you\", etc.\n- Say goodbye BEFORE you leave: \"Alright, sounds like a plan! See you all there!\"\n- Do NOT leave without saying bye - this is rude and unnatural."
  modelSettings := ⟨"gemini-2.5-flash", 80⟩

/-- `basePersonas` entry for Mike. -/
def personaMike : ParticipantPersona where
  agentId := "participant_mike"
  name := "Mike"
  pronouns := "he/him"
  promptContext := "You are Mike (he/him), on a Google Meet video call deciding on a restaurant with friends.\nThere's also Gemini, an AI assistant, in the call.\nThis is SPOKEN conversation - keep responses SHORT (1-2 sentences, like real speech).\n\nYour personality: VERY budget-conscious - you complain about prices a lot. You push back on expensive places HARD. \"That's way too pricey!\" \"I'm not paying $20 for a salad.\" \"Can't we just get pizza?\" You need to be convinced that fancier places are worth it.\n\nDON'T AGREE TOO QUICKLY - always ask about prices first. Push for cheaper options.\n\nCONVERGENCE RULES - CRITICAL:\n- If you've already raised a concern (e.g., \"too expensive\") and someone addressed it (gave a price range, suggested a compromise), ACKNOWLEDGE it. Say \"OK, that's reasonable\" or \"fine, I can work with that\".\n- Do NOT repeat the same price complaint more than TWICE. After that, either accept or propose a specific alternative.\n- TIMING: Start wrapping up after ~30 messages. By 50 messages, actively push for a final decision. The conversation should END by 60-70 messages MAX.\n- If you asked about prices and got an answer, RESPOND to the answer - don't keep asking.\n\nENDING - CRITICAL:\n- Your LAST message MUST include a farewell like \"bye\", \"see you\", \"later\", \"catch you\", etc.\n- Say goodbye BEFORE you leave: \"Alright, works for me! Catch you guys later!\"\n- Do NOT leave without saying bye - this is rude and unnatural."
  modelSettings := ⟨"gemini-2.5-flash", 70⟩

/-- `basePersonas` entry for Emma. -/
def personaEmma : ParticipantPersona where
  agentId := "participant_emma"
  name := "Emma"
  pronouns := "she/her"
  promptContext := "You are Emma (she/her), on a Google Meet video call deciding on a restaurant with friends.\nThere's also Gemini, an AI assistant, in the call.\nThis is SPOKEN conversation - keep responses SHORT (1-2 sentences, like real speech).\n\nYour personality: STRICT vegetarian who's skeptical of restaurant veg options. \"Do they ACTUALLY have real vegetarian food, or just sad side salads?\" \"I've been burned before - places say they have veg options but it's basically nothing.\" You need assurance before agreeing.\n\nDON'T AGREE TOO QUICKLY - verify the vegetarian options are actually good before committing.\n\nCONVERGENCE RULES - CRITICAL:\n- If you've asked about vegetarian options and someone gave you specific dishes (like \"they have a mushroom risotto\"), ACKNOWLEDGE it! Say \"Oh nice, that sounds good\" or \"OK, that works for me\".\n- Do NOT keep asking \"but do they have REAL veg options\" after getting an answer. That's annoying and repetitive.\n- TIMING: Start wrapping up after ~30 messages. By 50 messages, actively push for a final decision. The conversation should END by 60-70 messages MAX.\n- If your concern was addressed, SAY SO explicitly before moving on.\n\nENDING - CRITICAL:\n- Your LAST message MUST include a farewell like \"bye\", \"see you\", \"later\", \"catch you\", etc.\n- Say goodbye BEFORE you leave: \"Sounds good, see you all there!\"\n- Do NOT leave without saying bye - this is rude and unnatural."
  modelSettings := ⟨"gemini-2.5-flash", 70⟩

/-- `basePersonas` entry for Alex. -/
def personaAlex : ParticipantPersona where
  agentId := "participant_alex"
  name := "Alex"
  pronouns := "they/them"
  promptContext := "You are Alex (they/them), on a Google Meet video call deciding on a restaurant with friends.\nThere's also Gemini, an AI assistant, in the call.\nThis is SPOKEN conversation - keep responses SHORT (1-2 sentences, like real speech).\n\nYour personality: VERY adventurous and slightly dismissive of \"safe\" choices. You actively lobby AGAINST boring options. \"Pizza? Again? We always do that...\" \"Come on, when's the last time we tried something new?\" You champion the most unusual option available.\n\nDON'T AGREE TO BORING OPTIONS - keep pushing for adventure. Suggest alternatives if others pick something bland.\n\nCONVERGENCE RULES - CRITICAL:\n- If the group picks something that's at least somewhat interesting, accept it. You don't need perfection.\n- Do NOT keep pushing after 2-3 attempts. If people aren't convinced, let it go gracefully.\n- TIMING: Start wrapping up after ~30 messages. By 50 messages, actively push for a final decision. The conversation should END by 60-70 messages MAX.\n- Once a decision is made, support it even if it wasn't your first choice.\n\nENDING - CRITICAL:\n- Your LAST message MUST include a farewell like \"bye\", \"see you\", \"later\", \"catch you\", etc.\n- Say goodbye BEFORE you leave: \"Cool, I'm down! See you all there!\"\n- Do NOT leave without saying bye - this is rude and unnatural."
  modelSettings := ⟨"gemini-2.5-flash", 90⟩

/-- `basePersonas` entry for Jordan. -/
def personaJordan : ParticipantPersona where
  agentId := "participant_jordan"
  name := "Jordan"
  pronouns := "he/him"
  promptContext := "You are Jordan (he/him), on a Google Meet video call deciding on a restaurant with friends.\nThere's also Gemini, an AI assistant, in the call.\nThis is SPOKEN conversation - keep responses SHORT (1-2 sentences, like real speech).\n\nYour personality: PICKY eater with specific dislikes. You have allergies/preferences that rule things out. \"I can't do spicy food\" \"Last time I had Thai I didn't feel great...\" \"I'm not really into that cuisine.\" You're agreeable but keep having valid objections.\n\nRaise concerns about food you don't like. Don't veto everything but have legitimate reservations.\n\nCONVERGENCE RULES - CRITICAL:\n- If a place has options that work for you, SAY SO. \"Oh they have mild dishes? That works for me.\"\n- Do NOT keep raising the same concern after it's been addressed.\n- TIMING: Start wrapping up after ~30 messages. By 50 messages, actively push for a final decision. The conversation should END by 60-70 messages MAX.\n- Once you've stated your restrictions, trust that others will accommodate - don't keep reminding.\n\nENDING - CRITICAL:\n- Your LAST message MUST include a farewell like \"bye\", \"see you\", \"later\", \"catch you\", etc.\n- Say goodbye BEFORE you leave: \"Sounds good, see you guys!\"\n- Do NOT leave without saying bye - this is rude and unnatural."
  modelSettings := ⟨"gemini-2.5-flash", 60⟩

/-- `basePersonas` entry for Taylor. -/
def personaTaylor : ParticipantPersona where
  agentId := "participant_taylor"
  name := "Taylor"
  pronouns := "she/her"
  promptContext := "You are Taylor (she/her), on a Google Meet video call deciding on a restaurant with friends.\nThere's also Gemini, an AI assistant, in the call.\nThis is SPOKEN conversation - keep responses SHORT (1-2 sentences, like real speech).\n\nYour personality: Group diplomat who notices conflicts and tries to mediate - but also sides with people who seem left out. \"Wait, Mike hasn't agreed yet though...\" \"I don't think Emma's happy with that choice.\" You keep the discussion going by highlighting disagreements.\n\nPoint out when someone hasn't agreed. Ask clarifying questions. Make sure consensus is REAL before moving on.\n\nCONVERGENCE RULES - CRITICAL:\n- Once someone has explicitly agreed (said \"OK\" or \"that works\"), don't ask them again if they're on board.\n- Do NOT keep reopening settled issues. If Mike said \"fine, I can work with that\", he's agreed.\n- TIMING: Start wrapping up after ~30 messages. By 50 messages, actively push for a final decision. The conversation should END by 60-70 messages MAX.\n- Your goal is REAL consensus, not endless discussion. Once you have it, help close the conversation.\n\nENDING - CRITICAL:\n- Your LAST message MUST include a farewell like \"bye\", \"see you\", \"later\", \"catch you\", etc.\n- Say goodbye BEFORE you leave: \"Great, sounds like we're all set! Talk soon!\"\n- Do NOT leave without saying bye - this is rude and unnatural."
  modelSettings := ⟨"gemini-2.5-flash", 70⟩

/-- The fixed table of generic participant personas (`basePersonas` of
`generateParticipantPersonas`). -/
def basePersonas : List ParticipantPersona :=
  [personaSarah, personaMike, personaEmma, personaAlex, personaJordan, personaTaylor]

/-- `generateParticipantPersonas`: the first `count` base personas
(`basePersonas.slice(0, count)`). -/
def generateParticipantPersonas (count : Nat) : List ParticipantPersona :=
  basePersonas.take count
/-- `oceanToPersonalityDescription`: turn OCEAN scores into prose, one
trait fragment per dimension in the source's push order. -/
def oceanToPersonalityDescription (ocean : Option OceanScores) : String :=
  match ocean with
  | none => ""
  | some o =>
    let traits : List String :=
      (if 8 <= o.O then ["very open to new ideas and experiences"]
       else if 6 <= o.O then ["moderately curious and open-minded"]
       else if o.O <= 3 then ["prefers familiar approaches and practical solutions"]
       else []) ++
      (if 8 <= o.C then ["highly organized and detail-oriented"]
       else if 6 <= o.C then ["reasonably organized"]
       else if o.C <= 3 then ["flexible and spontaneous"]
       else []) ++
      (if 8 <= o.E then ["outgoing and talkative"]
       else if 6 <= o.E then ["moderately sociable"]
       else if o.E <= 3 then ["reserved and thoughtful before speaking"]
       else []) ++
      (if 8 <= o.A then ["cooperative and accommodating"]
       else if 6 <= o.A then ["generally friendly"]
       else if o.A <= 3 then ["direct and willing to challenge ideas"]
       else []) ++
      (if 7 <= o.N then ["tends to feel stressed under pressure"]
       else if o.N <= 3 then ["calm and confident"]
       else [])
    if traits.isEmpty then ""
    else "Your personality: You are " ++ String.intercalate ", " traits ++ "."

/-- `formatVoiceCardPrompt`.  `vc.voice_examples[0]` interpolates as the
text "undefined" when the list is empty, as in JavaScript. -/
def formatVoiceCardPrompt (vc : VoiceCard) : String :=
  "SPEAKING STYLE:\n- Length: " ++
    vc.words_per_turn ++
    " words per turn\n- Energy: " ++
    vc.energy ++
    "\n- Register: " ++
    vc.register ++
    (if vc.uses_contractions then "" else " (formal)") ++
    "\n\nNATURALNESS RULES - FOLLOW STRICTLY:\n- NEVER repeat back what someone just said (no \"So, tacos it is\" after they said tacos)\n- Limit filler phrases (\"you know\", \"I mean\", \"basically\") to MAX 1 per response\n- Vary your sentence openers - don't start every line the same way\n- Add NEW information - suggest specific places, times, or alternatives instead of just agreeing\n- Use natural contractions and casual language\n\nONE EXAMPLE OF YOUR VOICE (vary from this, don't copy exactly):\n  \"" ++
    (vc.voice_examples.headD "undefined") ++
    "\""

/-- Agent id of a scenario participant:
`participant_` + name lower-cased with every character outside `[a-z0-9]`
replaced by `_` (a global regex replace). -/
def scenarioParticipantAgentId (name : String) : String :=
  "participant_" ++ name.toLower.map (fun c => if c.isLower || c.isDigit then c else '_')

/-- `scenarioToPersonas`: one persona per scenario participant, with the
hard-coded pronouns "they/them" and temperature 0.7 + 0.05 · index. -/
def scenarioToPersonas (scenario : Scenario) : List ParticipantPersona :=
  scenario.participants.enum.map (fun ip =>
    let idx := ip.1
    let participant := ip.2
    let oceanDescription := oceanToPersonalityDescription participant.ocean
    let voiceCardPrompt :=
      match participant.voice_card with
      | some vc => formatVoiceCardPrompt vc
      | none => ""
    { agentId := scenarioParticipantAgentId participant.name
      name := participant.name
      pronouns := "they/them"
      promptContext :=
        "You are " ++
        participant.name ++
        " in a Google Meet video call.\nThere's also Gemini, an AI assistant, in the call who can only chat (cannot search or take actions).\nThis is SPOKEN conversation.\n\nSCENARIO: " ++
        scenario.scenario ++
        "\n\nYOUR ROLE: " ++
        participant.description ++
        "\n" ++
        (if oceanDescription = "" then "" else "\n" ++ oceanDescription) ++
        "\n" ++
        (if voiceCardPrompt = "" then "" else "\n" ++ voiceCardPrompt) ++
        "\n\nTURN-TAKING RULES:\n- Generally wait for 1-2 others to respond before speaking again\n- You MAY follow up if: no one has responded in a while, OR you have NEW information to add\n\nCONVERGENCE RULES - CRITICAL:\n- If you've raised a concern and it was ADDRESSED (someone answered your question or found a solution), ACKNOWLEDGE IT. Say \"OK, that works\" or \"thanks, good to know\" - don't ignore answers.\n- Do NOT repeat the same concern more than TWICE. If you've said it twice and nobody addressed it, either accept the situation or propose a specific alternative.\n- Do NOT ask the same question twice. If you asked and got an answer, move on.\n- TIMING: Start wrapping up after ~30 messages. By 50 messages, actively push for a final decision. The conversation should END by 60-70 messages MAX.\n- When someone directly answers your concern, SAY \"that works for me\" or similar before moving on.\n\nENDING THE CALL - CRITICAL:\n- Your LAST message MUST include a farewell like \"bye\", \"see you\", \"later\", \"catch you\", \"talk soon\", etc.\n- Say goodbye BEFORE you leave: \"Alright, sounds good! I'll catch you all later!\"\n- Wait for others to acknowledge or say bye back before actually leaving\n- Do NOT leave without saying bye - this is rude and unnatural\n- Don't leave abruptly mid-conversation - wrap up naturally\n\nCRITICAL NATURALNESS RULES:\n- NEVER start by echoing what someone just said\n- Don't overuse fillers like \"you know\", \"I mean\", \"basically\", \"perhaps\" - max 1 per response\n- Vary your sentence starters - don't begin every line with \"So,\" or \"Yeah,\"\n- Add substance - suggest specific options, give reasons, don't just validate\n- Use contractions: \"that's\", \"I'm\", \"let's\" - talk naturally\n\nRemember: Gemini is in the call and can help facilitate the discussion.\n\nSpeak naturally and concisely."
      modelSettings := ⟨"gemini-2.5-flash", 70 + idx * 5⟩ })

/-! ## Remote API layer

Each API helper performs one `fetch`.  The environment supplies the
outcome of that fetch; the helper reproduces the source's handling of it:
non-OK responses throw a message built from the status and body text, a
rejected fetch propagates its own error message, and a success returns
the parsed payload. -/

/-- Outcome of one `fetch`: parsed success payload, non-OK HTTP response
(status code and body text), or rejected promise (connection failure)
carrying the rejection's error message. -/
inductive FetchOutcome (α : Type) where
  | ok (value : α)
  | httpError (status : Nat) (body : String)
  | networkError (message : String)
deriving DecidableEq, Repr

/-- `data.experiment` as read by `createExperiment`
(`{id, metadata.name}`). -/
structure ExperimentInfo where
  id : String
  name : String
deriving DecidableEq, Repr

/-- `createExperiment`: POST `/experiments`; throws
`Failed to create experiment: <status> <body>` on a non-OK response.
(The request body — name, description and the two stage configs with
fresh `randomUUID` ids — is recorded by `provisionUnit` in the call
log.) -/
def createExperiment (response : FetchOutcome ExperimentInfo) :
    Except String ExperimentInfo :=
  match response with
  | .ok v => .ok v
  | .httpError status body =>
    .error ("Failed to create experiment: " ++ toString status ++ " " ++ body)
  | .networkError message => .error message

/-- `createCohort`: POST `/experiments/<id>/cohorts`; returns
`data.cohort.id` or throws `Failed to create cohort: <status> <body>`. -/
def createCohort (response : FetchOutcome String) : Except String String :=
  match response with
  | .ok cohortId => .ok cohortId
  | .httpError status body =>
    .error ("Failed to create cohort: " ++ toString status ++ " " ++ body)
  | .networkError message => .error message

/-- `createParticipantAgent`: POST
`/experiments/<id>/cohorts/<id>/participants`; returns
`data.participant.id` or throws
`Failed to create participant: <status> <body>`. -/
def createParticipantAgent (response : FetchOutcome String) : Except String String :=
  match response with
  | .ok participantId => .ok participantId
  | .httpError status body =>
    .error ("Failed to create participant: " ++ toString status ++ " " ++ body)
  | .networkError message => .error message

/-- Per-cohort slice of the export payload (`cohortMap[cohortId]`); the
association list keeps `Object.entries` insertion order. -/
structure CohortExportData where
  chatMap : List (String × List ChatMessage)
deriving DecidableEq, Repr

/-- The export payload (`data.cohortMap`). -/
structure ExportData where
  cohortMap : List (String × CohortExportData)
deriving DecidableEq, Repr

/-- `exportExperimentConversations`: GET `/experiments/<id>/export` and
reshape the cohort's chat stages into one `ConversationExport` per stage
(message text from `msg.message`, timestamp from
`msg.timestamp?.seconds || 0`, kind from `msg.type`).  A missing cohort
yields the empty list.  Non-OK responses throw
`Failed to export experiment: <status> <body>`. -/
def exportExperimentConversations (experimentId cohortId : String)
    (response : FetchOutcome ExportData) : Except String (List ConversationExport) :=
  match response with
  | .httpError status body =>
    .error ("Failed to export experiment: " ++ toString status ++ " " ++ body)
  | .networkError message => .error message
  | .ok data =>
    .ok
      (match data.cohortMap.lookup cohortId with
       | none => []
       | some cohortData =>
         cohortData.chatMap.map (fun stage =>
           { experimentId := experimentId
             cohortId := cohortId
             stageId := stage.1
             messages := stage.2.map (fun msg =>
               { id := msg.id
                 text := msg.message
                 timestamp := match msg.timestamp with
                   | some ts => ts.seconds
                   | none => 0
                 profile := msg.profile
                 messageType := msg.type
                 agentId := msg.agentId }) }))

/-! ## Unit provisioning -/

/-- One enumerated experiment specification (the source's inner
`ExperimentConfig` interface): a behavior and a group size, plus the
scenario in scenario mode. -/
structure ExperimentConfig where
  behavior : FacilitatorBehavior
  groupSize : Nat
  scenario : Option Scenario
deriving DecidableEq, Repr

/-- The value resolved by one unit's provisioning task: the source's
try-branch returns `{behavior, groupSize, scenario, experimentId,
cohortId}` and its catch-branch `{behavior, groupSize, scenario, error}`.
Downstream the two shapes are told apart by the truthiness of
`setup.error`; every message the API helpers throw is nonempty (each
starts with a fixed literal), so presence (`Except.error`) is a faithful
model of that test. -/
instance {ε α : Type} [DecidableEq ε] [DecidableEq α] : DecidableEq (Except ε α) := fun x y =>
  match x, y with
  | .ok a, .ok b =>
    if h : a = b then .isTrue (by rw [h])
    else .isFalse (fun hc => h (by injection hc))
  | .error a, .error b =>
    if h : a = b then .isTrue (by rw [h])
    else .isFalse (fun hc => h (by injection hc))
  | .ok _, .error _ => .isFalse (fun hc => Except.noConfusion hc)
  | .error _, .ok _ => .isFalse (fun hc => Except.noConfusion hc)

structure ExperimentSetup where
  behavior : FacilitatorBehavior
  groupSize : Nat
  scenario : Option Scenario
  outcome : Except String (String × String)
deriving DecidableEq, Repr

/-- One recorded provisioning request. -/
inductive RemoteCall where
  | createExperimentCall (name description : String)
  | createCohortCall (experimentId name description : String)
      (minParticipantsPerCohort maxParticipantsPerCohort : Nat)
  | addParticipantCall (experimentId cohortId agentId promptContext model : String)
      (name pronouns : Option String)
deriving DecidableEq, Repr

/-- Environment for one unit: the responses the remote server gives this
unit's calls.  `addParticipantResponses n` answers the unit's n-th
`createParticipantAgent` call (the facilitator is call 0, participants
follow); `pollSamples` is the unit's poll-observation budget (see
`PollSample`). -/
structure UnitEnv where
  createExperimentResponse : FetchOutcome ExperimentInfo
  createCohortResponse : FetchOutcome String
  addParticipantResponses : Nat → FetchOutcome String
  exportResponse : FetchOutcome ExportData
  pollSamples : List PollSample

/-- The participant-creation request for one persona: name and pronouns
present, model forwarded (temperature is not sent). -/
def personaCall (experimentId cohortId : String) (persona : ParticipantPersona) : RemoteCall :=
  RemoteCall.addParticipantCall experimentId cohortId persona.agentId
    persona.promptContext persona.modelSettings.model (some persona.name)
    (some persona.pronouns)

/-- Add the personas one after another (`for (const persona of
participantPersonas)`), consuming the unit's numbered participant
responses from `callIndex` on; the first failure stops the loop.  Returns
the outcome together with the calls issued. -/
def addPersonaAgents (experimentId cohortId : String) (env : UnitEnv) :
    Nat → List ParticipantPersona → Except String Unit × List RemoteCall
  | _, [] => (.ok (), [])
  | callIndex, persona :: rest =>
    let call := personaCall experimentId cohortId persona
    match createParticipantAgent (env.addParticipantResponses callIndex) with
    | .error e => (.error e, [call])
    | .ok _ =>
      let next := addPersonaAgents experimentId cohortId env (callIndex + 1) rest
      (next.1, call :: next.2)

/-- The participant personas a unit's provisioning adds: scenario-derived
in scenario mode, generic (`generateParticipantPersonas groupSize`)
otherwise. -/
def participantPersonasOf (spec : ExperimentConfig) : List ParticipantPersona :=
  match spec.scenario with
  | some s => scenarioToPersonas s
  | none => generateParticipantPersonas spec.groupSize

/-- The step chain of one unit's provisioning: create the experiment,
create the cohort with capacity `groupSize + 1` (min and max both), add
the Gemini facilitator from the behavior's prompt and model, then add the
participant personas (scenario-derived in scenario mode, generic
otherwise).  The first failing step aborts the remaining steps and the
unit carries that step's error message.  Returns the outcome and the
calls issued. -/
def provisionAttempt (config : BatchConfig) (spec : ExperimentConfig) (env : UnitEnv) :
    Except String (String × String) × List RemoteCall :=
  let experimentCall := RemoteCall.createExperimentCall
    ("Restaurant_" ++ spec.behavior.name ++ "_" ++ toString spec.groupSize ++ "ppl")
    (config.scenario.description ++ " | Gemini: " ++ spec.behavior.name ++
      " | Group size: " ++ toString spec.groupSize)
  match createExperiment env.createExperimentResponse with
  | .error e => (.error e, [experimentCall])
  | .ok experiment =>
    let total := spec.groupSize + 1
    let cohortCall := RemoteCall.createCohortCall experiment.id "Cohort 1"
      (toString total ++ " participants total (1 facilitator + " ++
        toString (total - 1) ++ " participants)") total total
    match createCohort env.createCohortResponse with
    | .error e => (.error e, [experimentCall, cohortCall])
    | .ok cohortId =>
      let facilitatorCall := RemoteCall.addParticipantCall experiment.id cohortId
        spec.behavior.agentId spec.behavior.promptContext
        spec.behavior.modelSettings.model (some "Gemini") none
      match createParticipantAgent (env.addParticipantResponses 0) with
      | .error e => (.error e, [experimentCall, cohortCall, facilitatorCall])
      | .ok _ =>
        let added := addPersonaAgents experiment.id cohortId env 1 (participantPersonasOf spec)
        match added.1 with
        | .error e =>
          (.error e, experimentCall :: cohortCall :: facilitatorCall :: added.2)
        | .ok _ =>
          (.ok (experiment.id, cohortId),
            experimentCall :: cohortCall :: facilitatorCall :: added.2)

/-- Provision one unit (the async arrow inside the window's
`Promise.all`): the step chain of `provisionAttempt` paired with the
spec's own behavior, group size and scenario, which the source's try- and
catch-branches both carry into the returned setup object. -/
def provisionUnit (config : BatchConfig) (spec : ExperimentConfig) (env : UnitEnv) :
    ExperimentSetup × List RemoteCall :=
  let attempt := provisionAttempt config spec env
  (⟨spec.behavior, spec.groupSize, spec.scenario, attempt.1⟩, attempt.2)


/-! ## Dialogue renderer -/

/-- Zero-pad a number to two digits (the `2-digit` option of
`toLocaleTimeString`). -/
def pad2 (n : Nat) : String :=
  if n < 10 then "0" ++ toString n else toString n

/-- `new Date(timestamp * 1000).toLocaleTimeString('en-US', ...)` with a
24-hour clock and 2-digit fields: rendered as `HH:MM:SS` of the UTC
clock.  (The source renders in the process's local time zone; every claim
depends only on this being a fixed, deterministic function of the
timestamp.) -/
def formatMessageTime (seconds : Nat) : String :=
  pad2 (seconds / 3600 % 24) ++ ":" ++ pad2 (seconds % 3600 / 60) ++ ":" ++
    pad2 (seconds % 60)

/-- The sender name of a rendered line: `msg.profile?.name || 'Unknown'`
(an empty name is falsy and also renders as `Unknown`). -/
def messageDisplayName (profileName : Option String) : String :=
  match profileName with
  | some n => if n = "" then "Unknown" else n
  | none => "Unknown"

/-- One rendered message line: `[HH:MM:SS] name: text`. -/
def messageLine (msg : ExportedMessage) : String :=
  "[" ++ formatMessageTime msg.timestamp ++ "] " ++
    messageDisplayName msg.profile.name ++ ": " ++ msg.text

/-- Loop body of `generateSimpleDialogue` for one result: units that are
not `success` or have no conversations are skipped; a rendered unit
pushes a header, an experiment-id line, a blank line, one line per
message of each conversation, and two closing blank lines. -/
def dialogueLinesStep (lines : List String) (result : ExperimentResult) : List String :=
  if result.status != ResultStatus.success then lines
  else
    match result.conversations with
    | none => lines
    | some convos =>
      if convos.isEmpty then lines
      else
        let afterHeader := lines ++
          ["=== " ++ result.facilitatorBehavior.toUpper ++ " (" ++
              toString result.groupSize ++ " participants) ===",
            "Experiment ID: " ++ result.experimentId,
            ""]
        let afterMessages := convos.foldl
          (fun ls convo =>
            convo.messages.foldl (fun ls msg => ls ++ [messageLine msg]) ls)
          afterHeader
        afterMessages ++ ["", ""]

/-- The `lines` array of `generateSimpleDialogue`, accumulated by the
source's pushes over the result list. -/
def dialogueLines (results : List ExperimentResult) : List String :=
  results.foldl dialogueLinesStep []

/-- The block of lines one result contributes to the rendered dialogue
(declarative view of `dialogueLinesStep`). -/
def dialogueBlock (result : ExperimentResult) : List String :=
  if result.status != ResultStatus.success then []
  else
    match result.conversations with
    | none => []
    | some convos =>
      if convos.isEmpty then []
      else
        ["=== " ++ result.facilitatorBehavior.toUpper ++ " (" ++
            toString result.groupSize ++ " participants) ===",
          "Experiment ID: " ++ result.experimentId,
          ""] ++
        convos.flatMap (fun convo => convo.messages.map messageLine) ++ ["", ""]

/-- Whether the renderer emits anything for a result: success status and
at least one conversation. -/
def renderedResult (result : ExperimentResult) : Bool :=
  result.status == ResultStatus.success &&
    (match result.conversations with
     | some convos => !convos.isEmpty
     | none => false)

/-- `generateSimpleDialogue`: the accumulated lines joined with `\n`. -/
def generateSimpleDialogue (results : List ExperimentResult) : String :=
  String.intercalate "\n" (dialogueLines results)

/-! ## Batch scheduler -/

/-- JavaScript `String.prototype.replace` with a plain-string pattern
replaces only the first occurrence (character-list form; an empty pattern
matches at position 0, prepending the replacement, as in JavaScript). -/
def replaceFirstAux (pat replacement : List Char) : List Char → List Char
  | [] => if List.isPrefixOf pat ([] : List Char) then replacement else []
  | c :: rest =>
    if List.isPrefixOf pat (c :: rest) then
      replacement ++ (c :: rest).drop pat.length
    else c :: replaceFirstAux pat replacement rest

/-- `s.replace(pat, replacement)` for plain-string patterns. -/
def stringReplaceFirst (s pat replacement : String) : String :=
  String.mk (replaceFirstAux pat.data replacement.data s.data)

/-- Substring occurrence test (character-list form), used to state claims
about paths. -/
def containsSubstringAux (pat : List Char) : List Char → Bool
  | [] => List.isPrefixOf pat ([] : List Char)
  | c :: rest => List.isPrefixOf pat (c :: rest) || containsSubstringAux pat rest

/-- Whether `pat` occurs as a substring of `s`. -/
def containsSubstring (s pat : String) : Bool :=
  containsSubstringAux pat.data s.data

/-- The dialogue checkpoint path:
`config.outputPath?.replace('.json', '_dialogues.txt') ||
'./batch_dialogues.txt'`.  The fallback fires when `outputPath` is absent
and also when the replaced string is empty (empty strings are falsy). -/
def dialoguePathOf (config : BatchConfig) : String :=
  match config.outputPath with
  | none => "./batch_dialogues.txt"
  | some p =>
    let replaced := stringReplaceFirst p ".json" "_dialogues.txt"
    if replaced = "" then "./batch_dialogues.txt" else replaced

/-- Whether `if (config.outputPath)` holds: present and nonempty. -/
def outputPathTruthy (config : BatchConfig) : Bool :=
  match config.outputPath with
  | none => false
  | some p => p != ""

/-- `config.maxConcurrent || 3` (`undefined` and `0` are falsy). -/
def effectiveMaxConcurrent (config : BatchConfig) : Nat :=
  match config.maxConcurrent with
  | none => 3
  | some 0 => 3
  | some n => n

/-- `const groupSizes = config.testMode ? [2] : [2, 3, 4, 5, 6]`. -/
def groupSizesOf (config : BatchConfig) : List Nat :=
  if config.testMode then [2] else [2, 3, 4, 5, 6]

/-- One artifact written by `fs.writeFileSync`: the JSON result list
(serialisation itself is not modelled — the event carries the list) or
the rendered dialogue text. -/
inductive WriteArtifact where
  | jsonResults (results : List ExperimentResult)
  | dialogueText (text : String)
deriving DecidableEq, Repr

/-- One `fs.writeFileSync` call: target path and artifact. -/
structure WriteEvent where
  path : String
  artifact : WriteArtifact
deriving DecidableEq, Repr

/-- Export-and-record step for one setup (the body of the
`for (const setup of batchSetups)` loop): a failed unit gets a
synthesized error result with `N/A` ids and no export call; a
provisioned unit is exported — errors swallowed by the empty catch,
leaving the empty conversation list — and always records a
success-status result.  Returns the result and whether the export
endpoint was called. -/
def processSetup (env : UnitEnv) (setup : ExperimentSetup) : ExperimentResult × Bool :=
  match setup.outcome with
  | .error e =>
    ({ facilitatorBehavior := setup.behavior.name
       groupSize := setup.groupSize
       experimentId := "N/A"
       cohortId := "N/A"
       status := .error
       error := some e
       conversations := none }, false)
  | .ok (experimentId, cohortId) =>
    let conversations :=
      match exportExperimentConversations experimentId cohortId env.exportResponse with
      | .ok convos => convos
      | .error _ => []
    ({ facilitatorBehavior := setup.behavior.name
       groupSize := setup.groupSize
       experimentId := experimentId
       cohortId := cohortId
       status := .success
       error := none
       conversations := some conversations }, true)

/-- Observable outcome of a batch run.  `results` is the returned list;
`windowStates` records the accumulated result list at the end of each
window (what the checkpoint serialises); `provisionCalls` pairs each unit
index with the provisioning requests it issued; `exportCalls` lists the
unit indices whose export endpoint was hit, in processing order;
`pollerCalls` lists the unit indices handed to the completion poller (the
source discards the poller's boolean results); `writeEvents` is the
ordered list of `fs.writeFileSync` calls. -/
structure BatchOutput where
  results : List ExperimentResult
  windowStates : List (List ExperimentResult)
  provisionCalls : List (Nat × List RemoteCall)
  exportCalls : List Nat
  pollerCalls : List Nat
  writeEvents : List WriteEvent
deriving DecidableEq, Repr

/-- The window loop
(`for (let i = 0; i < allExperiments.length; i += maxConcurrent)`),
processing `maxConcurrent`-sized slices of the indexed spec list strictly
in order.  Within a window: provision every unit via `Promise.all`
(which resolves in input order regardless of settlement order); if
`waitForCompletion` is set, hand every successfully provisioned unit —
the source filters on the truthiness of both ids, i.e. nonempty strings —
to the completion poller and discard the booleans; export and append each
unit's result in slice order; finally write the two checkpoint files when
an output path is configured.  `acc` is the accumulated `results`
array.  (Callers pass `maxConcurrent ≥ 1`; the source's `|| 3` default
guarantees this, and a zero step would not terminate there either.) -/
def runWindows (config : BatchConfig) (env : Nat → UnitEnv) (maxConcurrent : Nat) :
    Nat → List (Nat × ExperimentConfig) → List ExperimentResult → BatchOutput
  | _, [], acc =>
    { results := acc, windowStates := [], provisionCalls := []
      exportCalls := [], pollerCalls := [], writeEvents := [] }
  | 0, _ :: _, acc =>
    -- Unreachable: the loop is entered with fuel = length of the spec list
    -- and every window consumes at least one spec.  The fuel is a purely
    -- technical structural-termination device.
    { results := acc, windowStates := [], provisionCalls := []
      exportCalls := [], pollerCalls := [], writeEvents := [] }
  | fuel + 1, u :: rest, acc =>
    let batch := u :: rest.take (maxConcurrent - 1)
    let remaining := rest.drop (maxConcurrent - 1)
    let setups := batch.map (fun ie => (ie.1, provisionUnit config ie.2 (env ie.1)))
    let pollerCallsNow :=
      if config.waitForCompletion then
        (setups.filter (fun s =>
          match s.2.1.outcome with
          | .ok (eid, cid) => eid != "" && cid != ""
          | .error _ => false)).map (fun s => s.1)
      else []
    let processed := setups.map (fun s => (s.1, processSetup (env s.1) s.2.1))
    let newAcc := acc ++ processed.map (fun p => p.2.1)
    let writes :=
      if outputPathTruthy config then
        [⟨config.outputPath.getD "", WriteArtifact.jsonResults newAcc⟩,
          ⟨dialoguePathOf config, WriteArtifact.dialogueText (generateSimpleDialogue newAcc)⟩]
      else []
    let tail := runWindows config env maxConcurrent fuel remaining newAcc
    { results := tail.results
      windowStates := newAcc :: tail.windowStates
      provisionCalls := setups.map (fun s => (s.1, s.2.2)) ++ tail.provisionCalls
      exportCalls := (processed.filter (fun p => p.2.2)).map (fun p => p.1) ++ tail.exportCalls
      pollerCalls := pollerCallsNow ++ tail.pollerCalls
      writeEvents := writes ++ tail.writeEvents }

/-- Initial behavior list: test mode uses `[FACILITATOR_BEHAVIORS[0]]`. -/
def initialBehaviors (config : BatchConfig) : List FacilitatorBehavior :=
  if config.testMode then [behaviorSilent] else FACILITATOR_BEHAVIORS

/-- The `--behavior` include filter.  It scans the full
`FACILITATOR_BEHAVIORS` table (not the test-mode list); an unknown name
leaves nothing and the function `return []`s (modelled as `none`).  An
empty string is falsy in JavaScript and disables the filter. -/
def behaviorsAfterIncludeFilter (config : BatchConfig) :
    Option (List FacilitatorBehavior) :=
  match config.behaviorFilter with
  | none => some (initialBehaviors config)
  | some f =>
    if f = "" then some (initialBehaviors config)
    else
      let filtered := FACILITATOR_BEHAVIORS.filter (fun b => b.name == f)
      if filtered.isEmpty then none else some filtered

/-- JavaScript `split(',')` on the character list: split at every comma
(an empty string yields one empty part). -/
def splitOnComma : List Char → List (List Char)
  | [] => [[]]
  | c :: rest =>
    match splitOnComma rest with
    | [] => [[c]]
    | current :: parts =>
      if c == ',' then [] :: current :: parts else (c :: current) :: parts

/-- ASCII whitespace, as trimmed by JavaScript `trim()` (the source trims
behavior names, which contain none of the rarer Unicode spaces). -/
def isTrimmedWhitespace (c : Char) : Bool :=
  c == ' ' || c == '\t' || c == '\n' || c == '\r'

/-- Drop leading whitespace. -/
def trimLeading : List Char → List Char
  | [] => []
  | c :: rest => if isTrimmedWhitespace c then trimLeading rest else c :: rest

/-- JavaScript `s.trim()`: strip whitespace from both ends. -/
def jsTrim (s : String) : String :=
  String.mk (trimLeading (trimLeading s.data.reverse).reverse)

/-- JavaScript `s.split(',')`. -/
def jsSplitOnComma (s : String) : List String :=
  (splitOnComma s.data).map String.mk

/-- The `--exclude-behavior` filter: comma-separated names, trimmed, are
removed; excluding every behavior makes the function `return []`
(modelled as `none`). -/
def behaviorsAfterExcludeFilter (config : BatchConfig)
    (behaviors : List FacilitatorBehavior) : Option (List FacilitatorBehavior) :=
  match config.excludeBehavior with
  | none => some behaviors
  | some ex =>
    if ex = "" then some behaviors
    else
      let excludeList := (jsSplitOnComma ex).map (fun b => jsTrim b)
      let remaining := behaviors.filter (fun b => !(excludeList.contains b.name))
      if remaining.isEmpty then none else some remaining

/-- The behavior axis after both filters; `none` models the two early
`return []` paths (include filter names an unknown behavior / exclude
filter removes everything). -/
def filteredBehaviors (config : BatchConfig) : Option (List FacilitatorBehavior) :=
  match behaviorsAfterIncludeFilter config with
  | none => none
  | some bs => behaviorsAfterExcludeFilter config bs

/-- The `allExperiments.push(...)` loops: scenario mode (behaviors ×
scenarios, group size taken from the scenario's `participant_count`) when
a nonempty scenario list is configured, otherwise behaviors × group
sizes.  The fold mirrors the source's pushes into the array. -/
def enumerateAllExperiments (behaviors : List FacilitatorBehavior)
    (groupSizes : List Nat) (scenarios : Option (List Scenario)) :
    List ExperimentConfig :=
  match scenarios with
  | some ss =>
    if ss.isEmpty then
      behaviors.foldl (fun acc behavior =>
        groupSizes.foldl (fun acc groupSize =>
          acc ++ [⟨behavior, groupSize, none⟩]) acc) []
    else
      behaviors.foldl (fun acc behavior =>
        ss.foldl (fun acc scenario =>
          acc ++ [⟨behavior, scenario.participant_count, some scenario⟩]) acc) []
  | none =>
    behaviors.foldl (fun acc behavior =>
      groupSizes.foldl (fun acc groupSize =>
        acc ++ [⟨behavior, groupSize, none⟩]) acc) []

/-- The spec list a run will consume (empty when the behavior filters
abort before enumeration). -/
def enumeratedSpecs (config : BatchConfig) : List ExperimentConfig :=
  match filteredBehaviors config with
  | none => []
  | some behaviors =>
    enumerateAllExperiments behaviors (groupSizesOf config) config.scenarios

/-- A batch run that provisioned nothing and wrote nothing — the value of
the early `return []` paths. -/
def emptyBatchOutput : BatchOutput :=
  ⟨[], [], [], [], [], []⟩

/-- `createBatchExperiments`: resolve the behavior axis — on the two
`return []` paths the function logs to the console and returns the empty
batch, throwing nothing — then enumerate the factorial design and run it
window by window.  `env i` is the remote server's behavior towards unit
`i` of the enumeration. -/
def createBatchExperiments (config : BatchConfig) (env : Nat → UnitEnv) : BatchOutput :=
  match filteredBehaviors config with
  | none => emptyBatchOutput
  | some behaviors =>
    let allExperiments :=
      (enumerateAllExperiments behaviors (groupSizesOf config) config.scenarios).enum
    runWindows config env (effectiveMaxConcurrent config)
      allExperiments.length allExperiments []

/-! ## Concrete fixtures (used by witness theorems) -/

/-- A minimal scenario config. -/
def sampleScenarioConfig : ScenarioConfig :=
  ⟨"Restaurant Decision", "Restaurant Decision", some 30⟩

/-- A default configuration: no filters, no scenarios, concurrency 3,
output to `./batch_results.json`. -/
def sampleConfig : BatchConfig where
  apiKey := "dlb_test_key"
  baseUrl := "http://localhost/api/v1"
  scenario := sampleScenarioConfig
  waitForCompletion := false
  pollIntervalMs := some 5000
  maxWaitTimeMs := none
  testMode := false
  behaviorFilter := none
  excludeBehavior := none
  maxConcurrent := some 3
  outputPath := some "./batch_results.json"
  scenariosFile := none
  scenarios := none
  scenarioTypeFilter := none

/-- An environment whose server answers every call successfully and
returns an empty export payload. -/
def allOkEnv : Nat → UnitEnv := fun i =>
  { createExperimentResponse := .ok ⟨"exp_" ++ toString i, "Experiment " ++ toString i⟩
    createCohortResponse := .ok ("cohort_" ++ toString i)
    addParticipantResponses := fun _ => .ok "participant"
    exportResponse := .ok ⟨[]⟩
    pollSamples := [] }

/-- The terminal `UnitResult` the scheduler records for one indexed unit
(provision, then export-and-record). -/
def unitResultOf (config : BatchConfig) (env : Nat → UnitEnv)
    (ie : Nat × ExperimentConfig) : ExperimentResult :=
  (processSetup (env ie.1) (provisionUnit config ie.2 (env ie.1)).1).1

/-- Whether the scheduler calls the export endpoint for one indexed
unit. -/
def unitExportCalled (config : BatchConfig) (env : Nat → UnitEnv)
    (ie : Nat × ExperimentConfig) : Bool :=
  (processSetup (env ie.1) (provisionUnit config ie.2 (env ie.1)).1).2

/-- Number of windows for `n` specs and window size `mc`:
`Math.ceil(n / mc)`. -/
def windowCount (n mc : Nat) : Nat :=
  (n + mc - 1) / mc

/-- Whether a write event carries the JSON result list. -/
def isJsonWrite (e : WriteEvent) : Bool :=
  match e.artifact with
  | .jsonResults _ => true
  | .dialogueText _ => false

/-- Whether a write event carries the rendered dialogue text. -/
def isDialogueWrite (e : WriteEvent) : Bool :=
  match e.artifact with
  | .jsonResults _ => false
  | .dialogueText _ => true

/-- A configuration whose `--exclude-behavior` flag names all five
behaviors. -/
def excludeAllConfig : BatchConfig :=
  { sampleConfig with
    excludeBehavior := some "silent,short_responses,clarifying_questions,direct_fast_consensus,explanatory" }

/-- The complete planned provisioning request sequence for one unit,
given the ids the server assigns along the way: create experiment, create
cohort with min and max capacity both `groupSize + 1`, add the
facilitator from the behavior's prompt and model, then one
participant-creation call per persona. -/
def plannedProvisionCalls (config : BatchConfig) (spec : ExperimentConfig)
    (experimentId cohortId : String) : List RemoteCall :=
  RemoteCall.createExperimentCall
      ("Restaurant_" ++ spec.behavior.name ++ "_" ++ toString spec.groupSize ++ "ppl")
      (config.scenario.description ++ " | Gemini: " ++ spec.behavior.name ++
        " | Group size: " ++ toString spec.groupSize) ::
    RemoteCall.createCohortCall experimentId "Cohort 1"
      (toString (spec.groupSize + 1) ++ " participants total (1 facilitator + " ++
        toString (spec.groupSize + 1 - 1) ++ " participants)")
      (spec.groupSize + 1) (spec.groupSize + 1) ::
    RemoteCall.addParticipantCall experimentId cohortId spec.behavior.agentId
      spec.behavior.promptContext spec.behavior.modelSettings.model (some "Gemini") none ::
    (participantPersonasOf spec).map (personaCall experimentId cohortId)

/-- An environment with constant server-assigned ids. -/
def plainEnv : Nat → UnitEnv := fun _ =>
  { createExperimentResponse := .ok ⟨"exp", "Experiment"⟩
    createCohortResponse := .ok "cohort"
    addParticipantResponses := fun _ => .ok "participant"
    exportResponse := .ok ⟨[]⟩
    pollSamples := [] }

/-- The first result of a `plainEnv` run of the default configuration. -/
def sampleSuccessResult : ExperimentResult :=
  ⟨"silent", 2, "exp", "cohort", .success, none, some []⟩

/-- The default configuration with an output path that does not contain
`.json`. -/
def noJsonConfig : BatchConfig :=
  { sampleConfig with outputPath := some "./batch_results.txt" }

/-- Transport failures and non-OK responses are invisible to the loop
state: the poll loop behaves exactly like the loop over the successful
samples. -/
theorem pollLoop_eq_pollLoopOk (samples : List PollSample) :
    ∀ last stable,
      pollLoop samples last stable = pollLoopOk (samples.filterMap id) last stable := by
  induction samples with
  | nil => intro last stable; rfl
  | cons sample rest ih =>
    intro last stable
    match sample with
    | none => simpa [pollLoop, List.filterMap_cons] using ih last stable
    | some t =>
      simp only [pollLoop, List.filterMap_cons, pollLoopOk]
      by_cases h : 0 < t ∧ t = last
      · by_cases h15 : 15 ≤ stable + 1 <;> simp [h, h15, ih]
      · simp [h, ih]

/-- Characterisation of the restricted loop: it returns `true` iff either
the list begins with enough repeats of the current `last` value to push
the stability counter to 15, or a fresh run of 16 equal positive values
occurs somewhere in the list. -/
theorem pollLoopOk_eq_true_iff (l : List Nat) :
    ∀ last stable,
      pollLoopOk l last stable = true ↔
        ((∃ j l₂, l = List.replicate j last ++ l₂ ∧ 1 ≤ j ∧ 15 ≤ stable + j ∧ 0 < last) ∨
          (∃ l₁ w l₂, l = l₁ ++ List.replicate 16 w ++ l₂ ∧ 0 < w)) := by
  induction l with
  | nil =>
    intro last stable
    simp only [pollLoopOk]
    constructor
    · intro h; exact absurd h (by simp)
    · rintro (⟨j, l₂, hl, hj, _, _⟩ | ⟨l₁, w, l₂, hl, _⟩)
      · exfalso
        have := congrArg List.length hl
        simp [List.length_replicate] at this
        omega
      · exfalso
        have := congrArg List.length hl
        simp [List.length_replicate] at this
        omega
  | cons t rest ih =>
    intro last stable
    simp only [pollLoopOk]
    by_cases h : 0 < t ∧ t = last
    · rw [if_pos h]
      by_cases h15 : 15 ≤ stable + 1
      · rw [if_pos h15]
        constructor
        · intro _
          refine Or.inl ⟨1, rest, ?_, le_refl 1, by omega, h.2 ▸ h.1⟩
          rw [List.replicate_one, List.cons_append, List.nil_append, h.2]
        · intro _; rfl
      · rw [if_neg h15, ih t (stable + 1)]
        constructor
        · rintro (⟨j, l₂, hl, hj, hs, hw⟩ | ⟨l₁, w, l₂, hl, hw⟩)
          · refine Or.inl ⟨j + 1, l₂, ?_, by omega, by omega, h.2 ▸ h.1⟩
            rw [← h.2, List.replicate_succ, List.cons_append]
            exact congrArg (t :: ·) hl
          · refine Or.inr ⟨t :: l₁, w, l₂, ?_, hw⟩
            rw [hl]; rfl
        · rintro (⟨j, l₂, hl, hj, hs, hw⟩ | ⟨l₁, w, l₂, hl, hw⟩)
          · -- the head consumes one repeat; j = 1 would contradict ¬(15 ≤ stable + 1)
            obtain ⟨j', rfl⟩ : ∃ j', j = j' + 1 := ⟨j - 1, by omega⟩
            rw [List.replicate_succ, List.cons_append] at hl
            injection hl with h1 h2
            cases j' with
            | zero => exact absurd (by omega : 15 ≤ stable + 1) h15
            | succ j'' =>
              rw [← h1] at h2
              exact Or.inl ⟨j'' + 1, l₂, h2, by omega, by omega, h.1⟩
          · match l₁ with
            | [] =>
              rw [List.nil_append, show (16 : Nat) = 15 + 1 from rfl,
                List.replicate_succ, List.cons_append] at hl
              injection hl with h1 h2
              subst h1
              exact Or.inl ⟨15, l₂, h2, by omega, by omega, hw⟩
            | a :: l₁' =>
              rw [List.cons_append, List.cons_append] at hl
              injection hl with h1 h2
              exact Or.inr ⟨l₁', w, l₂, h2, hw⟩
    · rw [if_neg h, ih t 0]
      constructor
      · rintro (⟨j, l₂, hl, hj, hs, hw⟩ | ⟨l₁, w, l₂, hl, hw⟩)
        · -- a run of j ≥ 15 repeats of t together with the head gives 16
          obtain ⟨k, hk⟩ : ∃ k, j + 1 = 16 + k := ⟨j + 1 - 16, by omega⟩
          refine Or.inr ⟨[], t, List.replicate k t ++ l₂, ?_, hw⟩
          have hc : t :: rest = List.replicate (j + 1) t ++ l₂ := by
            rw [List.replicate_succ, List.cons_append]
            exact congrArg (t :: ·) hl
          rw [List.nil_append, hc, hk, List.replicate_add, List.append_assoc]
        · refine Or.inr ⟨t :: l₁, w, l₂, ?_, hw⟩
          rw [hl]; rfl
      · rintro (⟨j, l₂, hl, hj, hs, hw⟩ | ⟨l₁, w, l₂, hl, hw⟩)
        · -- impossible: the head would have matched `last`
          exfalso
          obtain ⟨j', rfl⟩ : ∃ j', j = j' + 1 := ⟨j - 1, by omega⟩
          rw [List.replicate_succ, List.cons_append] at hl
          injection hl with h1 h2
          exact h ⟨h1 ▸ hw, h1⟩
        · match l₁ with
          | [] =>
            rw [List.nil_append, show (16 : Nat) = 15 + 1 from rfl,
              List.replicate_succ, List.cons_append] at hl
            injection hl with h1 h2
            subst h1
            exact Or.inl ⟨15, l₂, h2, by omega, by omega, hw⟩
          | a :: l₁' =>
            rw [List.cons_append, List.cons_append] at hl
            injection hl with h1 h2
            exact Or.inr ⟨l₁', w, l₂, h2, hw⟩

/-- C1, counterexample.  The claim asserts that a sample sequence
`[0, 0, 3, 3, ..., 3]` with 15 samples equal to 3 makes the poller return
`true`.  On the code it does not: the first sample at 3 differs from the
previous count and resets `stableCount` to 0, so 15 samples at 3 drive
`stableCount` only to 14, below the threshold — the poller keeps waiting
and times out with `false`. -/
theorem C1_fifteen_stable_samples_return_false :
    waitForExperimentCompletion
      (some 0 :: some 0 :: List.replicate 15 (some 3)) = false := by
  decide

/-- C1 (amended): for every handle, poll interval and maxWait, the
Completion Poller returns `true` if and only if, before `maxWait` elapses,
its successful samples contain 16 consecutive samples with one equal
positive total message count — i.e. at least 15 consecutive samples each
unchanged from the previous successful sample and positive (so
`[0,0,3,...]` needs 16 samples at 3, not 15); it returns `false` on
timeout (exhausted sample budget), and a transport failure or non-OK
response is swallowed, skipped without touching the stability counters,
and never raises. -/
theorem C1_waitForExperimentCompletion_true_iff (samples : List PollSample) :
    waitForExperimentCompletion samples = true ↔
      ∃ l₁ w l₂, samples.filterMap id = l₁ ++ List.replicate 16 w ++ l₂ ∧ 0 < w := by
  rw [waitForExperimentCompletion, pollLoop_eq_pollLoopOk, pollLoopOk_eq_true_iff]
  constructor
  · rintro (⟨j, l₂, hl, hj, hs, hw⟩ | hrun)
    · exact absurd hw (by omega)
    · exact hrun
  · exact Or.inr

/-! ## Structure of the window loop -/

/-- Any window slice recombines to the original list. -/
theorem window_split (u : Nat × ExperimentConfig) (rest : List (Nat × ExperimentConfig))
    (mc : Nat) :
    (u :: rest.take (mc - 1)) ++ rest.drop (mc - 1) = u :: rest := by
  rw [List.cons_append, List.take_append_drop]

/-- The result list of the window loop: the accumulator followed by one
`UnitResult` per spec, in spec order. -/
theorem runWindows_results (config : BatchConfig) (env : Nat → UnitEnv) (mc : Nat) :
    ∀ fuel l acc, l.length ≤ fuel →
      (runWindows config env mc fuel l acc).results =
        acc ++ l.map (unitResultOf config env) := by
  intro fuel
  induction fuel with
  | zero =>
    intro l acc hl
    match l with
    | [] => simp [runWindows]
    | _ :: _ => exact absurd hl (by simp)
  | succ fuel ih =>
    intro l acc hl
    match l with
    | [] => simp [runWindows]
    | u :: rest =>
      have hrem : (rest.drop (mc - 1)).length ≤ fuel := by
        simp only [List.length_drop]
        have := hl
        simp only [List.length_cons] at this
        omega
      have hmap : ∀ (xs : List (Nat × ExperimentConfig)),
          List.map (fun p => p.2.1)
            (List.map (fun s => (s.1, processSetup (env s.1) s.2.1))
              (List.map (fun ie => (ie.1, provisionUnit config ie.2 (env ie.1))) xs)) =
          xs.map (unitResultOf config env) := by
        intro xs
        rw [List.map_map, List.map_map]
        rfl
      simp only [runWindows, ih _ _ hrem]
      rw [hmap, List.append_assoc, ← List.map_append, window_split]

/-- The provisioning-call log of the window loop: one entry per spec, in
spec order, holding exactly the calls `provisionUnit` issued for it. -/
theorem runWindows_provisionCalls (config : BatchConfig) (env : Nat → UnitEnv) (mc : Nat) :
    ∀ fuel l acc, l.length ≤ fuel →
      (runWindows config env mc fuel l acc).provisionCalls =
        l.map (fun ie => (ie.1, (provisionUnit config ie.2 (env ie.1)).2)) := by
  intro fuel
  induction fuel with
  | zero =>
    intro l acc hl
    match l with
    | [] => simp [runWindows]
    | _ :: _ => exact absurd hl (by simp)
  | succ fuel ih =>
    intro l acc hl
    match l with
    | [] => simp [runWindows]
    | u :: rest =>
      have hrem : (rest.drop (mc - 1)).length ≤ fuel := by
        simp only [List.length_drop]
        have := hl
        simp only [List.length_cons] at this
        omega
      have hmap : ∀ (xs : List (Nat × ExperimentConfig)),
          List.map (fun s => (s.1, s.2.2))
            (List.map (fun ie => (ie.1, provisionUnit config ie.2 (env ie.1))) xs) =
          xs.map (fun ie => (ie.1, (provisionUnit config ie.2 (env ie.1)).2)) := by
        intro xs
        rw [List.map_map]
        rfl
      simp only [runWindows, ih _ _ hrem]
      rw [hmap, ← List.map_append, window_split]

/-- The export-call log of the window loop: the indices of the specs
whose provisioning succeeded, in spec order. -/
theorem runWindows_exportCalls (config : BatchConfig) (env : Nat → UnitEnv) (mc : Nat) :
    ∀ fuel l acc, l.length ≤ fuel →
      (runWindows config env mc fuel l acc).exportCalls =
        l.filterMap (fun ie =>
          if unitExportCalled config env ie then some ie.1 else none) := by
  intro fuel
  induction fuel with
  | zero =>
    intro l acc hl
    match l with
    | [] => simp [runWindows]
    | _ :: _ => exact absurd hl (by simp)
  | succ fuel ih =>
    intro l acc hl
    match l with
    | [] => simp [runWindows]
    | u :: rest =>
      have hrem : (rest.drop (mc - 1)).length ≤ fuel := by
        simp only [List.length_drop]
        have := hl
        simp only [List.length_cons] at this
        omega
      have hmap : ∀ (xs : List (Nat × ExperimentConfig)),
          List.map (fun p => p.1)
            (List.filter (fun p => p.2.2)
              (List.map (fun s => (s.1, processSetup (env s.1) s.2.1))
                (List.map (fun ie => (ie.1, provisionUnit config ie.2 (env ie.1))) xs))) =
          xs.filterMap (fun ie =>
            if unitExportCalled config env ie then some ie.1 else none) := by
        intro xs
        induction xs with
        | nil => rfl
        | cons x xs ihx =>
          simp only [List.map_cons, List.filter_cons, List.filterMap_cons]
          by_cases hxr : (processSetup (env x.1) (provisionUnit config x.2 (env x.1)).1).2 = true
          · have hxu : unitExportCalled config env x = true := hxr
            simpa [hxr, hxu] using ihx
          · have hraw : (processSetup (env x.1) (provisionUnit config x.2 (env x.1)).1).2 = false := by
              cases h2 : (processSetup (env x.1) (provisionUnit config x.2 (env x.1)).1).2 with
              | true => exact absurd h2 hxr
              | false => rfl
            have hxu : unitExportCalled config env x = false := hraw
            simpa [hraw, hxu] using ihx
      simp only [runWindows, ih _ _ hrem]
      rw [hmap, ← List.filterMap_append, window_split]

/-- Ceiling-division recurrence: one more window handles the first `mc`
specs. -/
theorem windowCount_succ (n mc : Nat) (hn : 0 < n) (hmc : 0 < mc) :
    windowCount n mc = 1 + windowCount (n - mc) mc := by
  unfold windowCount
  by_cases h : n ≤ mc
  · have h1 : n - mc = 0 := by omega
    rw [h1]
    have h2 : (0 + mc - 1) / mc = 0 := Nat.div_eq_of_lt (by omega)
    have h3 : (n + mc - 1) / mc = 1 := by
      apply Nat.div_eq_of_lt_le (by omega) (by omega)
    omega
  · have h1 : n + mc - 1 = (n - mc + mc - 1) + mc := by omega
    rw [h1, Nat.add_div_right _ hmc]
    omega

/-- The per-window snapshots of the accumulated result list: after window
`k` (0-based) the batch state holds the results of the first
`(k+1) · mc` specs. -/
theorem runWindows_windowStates (config : BatchConfig) (env : Nat → UnitEnv)
    (mc : Nat) (hmc : 0 < mc) :
    ∀ fuel l acc, l.length ≤ fuel →
      (runWindows config env mc fuel l acc).windowStates =
        (List.range (windowCount l.length mc)).map (fun k =>
          acc ++ (l.take ((k + 1) * mc)).map (unitResultOf config env)) := by
  intro fuel
  induction fuel with
  | zero =>
    intro l acc hl
    match l with
    | [] => simp [runWindows, windowCount, Nat.div_eq_of_lt (by omega : mc - 1 < mc)]
    | _ :: _ => exact absurd hl (by simp)
  | succ fuel ih =>
    intro l acc hl
    match l with
    | [] => simp [runWindows, windowCount, Nat.div_eq_of_lt (by omega : mc - 1 < mc)]
    | u :: rest =>
      have hrem : (rest.drop (mc - 1)).length ≤ fuel := by
        simp only [List.length_drop]
        have := hl
        simp only [List.length_cons] at this
        omega
      have hbatch : u :: rest.take (mc - 1) = (u :: rest).take mc := by
        obtain ⟨m, rfl⟩ : ∃ m, mc = m + 1 := ⟨mc - 1, by omega⟩
        simp [List.take_succ_cons]
      have hdrop : rest.drop (mc - 1) = (u :: rest).drop mc := by
        obtain ⟨m, rfl⟩ : ∃ m, mc = m + 1 := ⟨mc - 1, by omega⟩
        simp [List.drop_succ_cons]
      have hcount : windowCount (u :: rest).length mc =
          1 + windowCount ((u :: rest).drop mc).length mc := by
        rw [List.length_drop]
        exact windowCount_succ _ mc (by simp) hmc
      have hmap : ∀ (xs : List (Nat × ExperimentConfig)),
          List.map (fun p => p.2.1)
            (List.map (fun s => (s.1, processSetup (env s.1) s.2.1))
              (List.map (fun ie => (ie.1, provisionUnit config ie.2 (env ie.1))) xs)) =
          xs.map (unitResultOf config env) := by
        intro xs
        rw [List.map_map, List.map_map]
        rfl
      simp only [runWindows, ih _ _ hrem, hmap]
      rw [hbatch, hdrop, hcount, Nat.add_comm 1, List.range_succ_eq_map]
      simp only [List.map_cons, List.map_map]
      congr 1
      · norm_num
      · refine List.map_congr_left (fun k _ => ?_)
        rw [List.append_assoc, ← List.map_append, ← List.take_add]
        have harith : mc + (k + 1) * mc = (Nat.succ k + 1) * mc := by
          rw [Nat.succ_eq_add_one]; ring
        rw [harith]
        rfl

/-- With an output path configured, each window appends exactly one
checkpoint: the accumulated JSON results written to the output path
followed by the rendered dialogue written to the dialogue path. -/
theorem runWindows_writeEvents_of_truthy (config : BatchConfig) (env : Nat → UnitEnv)
    (mc : Nat) (h : outputPathTruthy config = true) :
    ∀ fuel l acc, l.length ≤ fuel →
      (runWindows config env mc fuel l acc).writeEvents =
        (runWindows config env mc fuel l acc).windowStates.flatMap (fun st =>
          [⟨config.outputPath.getD "", WriteArtifact.jsonResults st⟩,
            ⟨dialoguePathOf config, WriteArtifact.dialogueText (generateSimpleDialogue st)⟩]) := by
  intro fuel
  induction fuel with
  | zero =>
    intro l acc hl
    match l with
    | [] => simp [runWindows]
    | _ :: _ => exact absurd hl (by simp)
  | succ fuel ih =>
    intro l acc hl
    match l with
    | [] => simp [runWindows]
    | u :: rest =>
      have hrem : (rest.drop (mc - 1)).length ≤ fuel := by
        simp only [List.length_drop]
        have := hl
        simp only [List.length_cons] at this
        omega
      simp only [runWindows, h, if_true, ih _ _ hrem, List.flatMap_cons]

/-- With no (truthy) output path, the window loop writes nothing. -/
theorem runWindows_writeEvents_of_falsy (config : BatchConfig) (env : Nat → UnitEnv)
    (mc : Nat) (h : outputPathTruthy config = false) :
    ∀ fuel l acc, l.length ≤ fuel →
      (runWindows config env mc fuel l acc).writeEvents = [] := by
  intro fuel
  induction fuel with
  | zero =>
    intro l acc hl
    match l with
    | [] => simp [runWindows]
    | _ :: _ => exact absurd hl (by simp)
  | succ fuel ih =>
    intro l acc hl
    match l with
    | [] => simp [runWindows]
    | u :: rest =>
      have hrem : (rest.drop (mc - 1)).length ≤ fuel := by
        simp only [List.length_drop]
        have := hl
        simp only [List.length_cons] at this
        omega
      simp [runWindows, h, ih _ _ hrem]

/-- The concurrency budget is always positive (`|| 3` turns 0 and
undefined into 3). -/
theorem effectiveMaxConcurrent_pos (config : BatchConfig) :
    0 < effectiveMaxConcurrent config := by
  cases hm : config.maxConcurrent with
  | none => simp [effectiveMaxConcurrent, hm]
  | some n => cases n <;> simp [effectiveMaxConcurrent, hm]

/-- Results of a full run: one `UnitResult` per enumerated spec, in spec
order. -/
theorem createBatchExperiments_results (config : BatchConfig) (env : Nat → UnitEnv) :
    (createBatchExperiments config env).results =
      (enumeratedSpecs config).enum.map (unitResultOf config env) := by
  cases hb : filteredBehaviors config with
  | none => simp [createBatchExperiments, enumeratedSpecs, hb, emptyBatchOutput]
  | some bs =>
    simp only [createBatchExperiments, enumeratedSpecs, hb]
    rw [runWindows_results config env _ _ _ _ (le_refl _), List.nil_append]

/-- Window snapshots of a full run. -/
theorem createBatchExperiments_windowStates (config : BatchConfig) (env : Nat → UnitEnv) :
    (createBatchExperiments config env).windowStates =
      (List.range (windowCount (enumeratedSpecs config).length (effectiveMaxConcurrent config))).map
        (fun k => ((enumeratedSpecs config).enum.take ((k + 1) * effectiveMaxConcurrent config)).map
          (unitResultOf config env)) := by
  cases hb : filteredBehaviors config with
  | none =>
    have hmc := effectiveMaxConcurrent_pos config
    simp [createBatchExperiments, enumeratedSpecs, hb, emptyBatchOutput, windowCount]
    exact Nat.div_eq_of_lt (by omega)
  | some bs =>
    simp only [createBatchExperiments, enumeratedSpecs, hb]
    rw [runWindows_windowStates config env _ (effectiveMaxConcurrent_pos config) _ _ _ (le_refl _)]
    simp [List.enum_length]

/-- C2: for every configuration and every outcome of per-unit
provisioning, the batch result list contains exactly one `UnitResult` per
enumerated spec — its length equals the number of enumerated specs — and
the snapshot after window k (0-based) holds exactly the results of the
specs consumed through window k, i.e. `min ((k+1)·mc) n` of them; no spec
is dropped or duplicated under partial failure. -/
theorem C2_one_result_per_spec (config : BatchConfig) (env : Nat → UnitEnv) :
    (createBatchExperiments config env).results.length = (enumeratedSpecs config).length ∧
    ∀ k state, (createBatchExperiments config env).windowStates.get? k = some state →
      state.length =
        min ((k + 1) * effectiveMaxConcurrent config) (enumeratedSpecs config).length := by
  constructor
  · rw [createBatchExperiments_results]
    simp [List.enum_length]
  · intro k state hk
    rw [createBatchExperiments_windowStates] at hk
    rw [List.get?_map] at hk
    cases hr : (List.range (windowCount (enumeratedSpecs config).length
        (effectiveMaxConcurrent config))).get? k with
    | none => rw [hr] at hk; cases hk
    | some kk =>
      have hklt : k < windowCount (enumeratedSpecs config).length
          (effectiveMaxConcurrent config) := by
        by_contra hge
        have hnone : (List.range (windowCount (enumeratedSpecs config).length
            (effectiveMaxConcurrent config))).get? k = none := by
          rw [List.get?_eq_none]
          simpa using Nat.le_of_not_lt hge
        rw [hnone] at hr
        cases hr
      have hkk : kk = k := by
        rw [List.get?_range hklt] at hr
        injection hr with h
        omega
      subst hkk
      rw [hr] at hk
      simp only [Option.map_some'] at hk
      injection hk with hk
      rw [← hk]
      simp [List.length_take, List.enum_length]

/-- A fold that pushes one element per step builds `init ++ map`. -/
theorem foldl_append_singleton {α β : Type} (f : α → β) :
    ∀ (l : List α) (init : List β),
      l.foldl (fun acc x => acc ++ [f x]) init = init ++ l.map f := by
  intro l
  induction l with
  | nil => intro init; simp
  | cons x xs ih => intro init; simp [ih]

/-- A fold that appends a block per step builds `init ++ flatMap`. -/
theorem foldl_append_eq_flatMap {α β : Type} (g : α → List β) :
    ∀ (l : List α) (init : List β),
      l.foldl (fun acc x => acc ++ g x) init = init ++ l.flatMap g := by
  intro l
  induction l with
  | nil => intro init; simp
  | cons x xs ih => intro init; simp [ih]

/-- The push-loop enumeration in declarative form: behaviors are the
outer loop, scenarios (in scenario mode) or group sizes (otherwise) the
inner loop. -/
theorem enumerateAllExperiments_eq (behaviors : List FacilitatorBehavior)
    (groupSizes : List Nat) :
    (∀ ss, ss ≠ [] →
      enumerateAllExperiments behaviors groupSizes (some ss) =
        behaviors.flatMap (fun behavior =>
          ss.map (fun scenario => ⟨behavior, scenario.participant_count, some scenario⟩))) ∧
    (∀ scenarios, scenarios = none ∨ scenarios = some [] →
      enumerateAllExperiments behaviors groupSizes scenarios =
        behaviors.flatMap (fun behavior =>
          groupSizes.map (fun groupSize => ⟨behavior, groupSize, none⟩))) := by
  constructor
  · intro ss hss
    simp only [enumerateAllExperiments, List.isEmpty_iff, hss, if_false]
    have hinner : ∀ (behavior : FacilitatorBehavior) (acc : List ExperimentConfig),
        ss.foldl (fun acc scenario =>
          acc ++ [(⟨behavior, scenario.participant_count, some scenario⟩ : ExperimentConfig)]) acc =
        acc ++ ss.map (fun scenario => ⟨behavior, scenario.participant_count, some scenario⟩) :=
      fun behavior acc => foldl_append_singleton _ ss acc
    simp only [hinner]
    simpa using foldl_append_eq_flatMap
      (fun behavior => ss.map (fun scenario =>
        (⟨behavior, scenario.participant_count, some scenario⟩ : ExperimentConfig)))
      behaviors []
  · rintro scenarios (rfl | rfl)
    · simp only [enumerateAllExperiments]
      have hinner : ∀ (behavior : FacilitatorBehavior) (acc : List ExperimentConfig),
          groupSizes.foldl (fun acc groupSize =>
            acc ++ [(⟨behavior, groupSize, none⟩ : ExperimentConfig)]) acc =
          acc ++ groupSizes.map (fun groupSize => ⟨behavior, groupSize, none⟩) :=
        fun behavior acc => foldl_append_singleton _ groupSizes acc
      simp only [hinner]
      simpa using foldl_append_eq_flatMap
        (fun behavior => groupSizes.map (fun groupSize =>
          (⟨behavior, groupSize, none⟩ : ExperimentConfig))) behaviors []
    · simp only [enumerateAllExperiments, List.isEmpty_nil, if_true]
      have hinner : ∀ (behavior : FacilitatorBehavior) (acc : List ExperimentConfig),
          groupSizes.foldl (fun acc groupSize =>
            acc ++ [(⟨behavior, groupSize, none⟩ : ExperimentConfig)]) acc =
          acc ++ groupSizes.map (fun groupSize => ⟨behavior, groupSize, none⟩) :=
        fun behavior acc => foldl_append_singleton _ groupSizes acc
      simp only [hinner]
      simpa using foldl_append_eq_flatMap
        (fun behavior => groupSizes.map (fun groupSize =>
          (⟨behavior, groupSize, none⟩ : ExperimentConfig))) behaviors []

/-- C4: the enumerated spec list is ordered with behaviors as the outer
loop and scenarios (or group sizes) as the inner loop, and the final
result list is exactly the enumeration-order map of per-unit results:
windows are strictly sequential and `Promise.all` recombines each
window's concurrent units into spec order before they are appended. -/
theorem C4_enumeration_and_result_order (config : BatchConfig) (env : Nat → UnitEnv) :
    (∀ bs, filteredBehaviors config = some bs →
      (∀ ss, config.scenarios = some ss → ss ≠ [] →
        enumeratedSpecs config = bs.flatMap (fun behavior =>
          ss.map (fun scenario => ⟨behavior, scenario.participant_count, some scenario⟩))) ∧
      (config.scenarios = none ∨ config.scenarios = some [] →
        enumeratedSpecs config = bs.flatMap (fun behavior =>
          (groupSizesOf config).map (fun groupSize => ⟨behavior, groupSize, none⟩)))) ∧
    (createBatchExperiments config env).results =
      (enumeratedSpecs config).enum.map (unitResultOf config env) := by
  constructor
  · intro bs hb
    constructor
    · intro ss hss hne
      simp only [enumeratedSpecs, hb, hss]
      exact (enumerateAllExperiments_eq bs (groupSizesOf config)).1 ss hne
    · intro hcase
      simp only [enumeratedSpecs, hb]
      exact (enumerateAllExperiments_eq bs (groupSizesOf config)).2 config.scenarios hcase
  · exact createBatchExperiments_results config env

/-- Counting writes over per-window checkpoint pairs. -/
theorem countP_checkpoint_pairs (p1 p2 : String)
    (states : List (List ExperimentResult)) :
    ((states.flatMap (fun st =>
        ([⟨p1, WriteArtifact.jsonResults st⟩,
          ⟨p2, WriteArtifact.dialogueText (generateSimpleDialogue st)⟩] : List WriteEvent))).countP isJsonWrite =
      states.length) ∧
    ((states.flatMap (fun st =>
        ([⟨p1, WriteArtifact.jsonResults st⟩,
          ⟨p2, WriteArtifact.dialogueText (generateSimpleDialogue st)⟩] : List WriteEvent))).countP isDialogueWrite =
      states.length) ∧
    (states.flatMap (fun st =>
        ([⟨p1, WriteArtifact.jsonResults st⟩,
          ⟨p2, WriteArtifact.dialogueText (generateSimpleDialogue st)⟩] : List WriteEvent))).length =
      2 * states.length := by
  induction states with
  | nil => simp
  | cons st rest ih =>
    simp only [List.flatMap_cons, List.countP_append, List.length_append, ih.1, ih.2.1, ih.2.2]
    refine ⟨?_, ?_, ?_⟩ <;> simp [List.countP_cons, isJsonWrite, isDialogueWrite] <;> omega

/-- C7: when an output path is configured, the checkpoint — the full
accumulated JSON result list plus the rendered dialogue text — is written
exactly once per window: over a run the JSON results and the dialogue are
each written exactly `⌈n / mc⌉` times (`n` enumerated specs, concurrency
budget `mc`), two file writes per window. -/
theorem C7_checkpoint_once_per_window (config : BatchConfig) (env : Nat → UnitEnv)
    (p : String) (hp : config.outputPath = some p) (hne : p ≠ "") :
    (createBatchExperiments config env).writeEvents.countP isJsonWrite =
      windowCount (enumeratedSpecs config).length (effectiveMaxConcurrent config) ∧
    (createBatchExperiments config env).writeEvents.countP isDialogueWrite =
      windowCount (enumeratedSpecs config).length (effectiveMaxConcurrent config) ∧
    (createBatchExperiments config env).writeEvents.length =
      2 * windowCount (enumeratedSpecs config).length (effectiveMaxConcurrent config) := by
  have htr : outputPathTruthy config = true := by
    simp only [outputPathTruthy, hp]
    exact bne_iff_ne.mpr hne
  have hmc := effectiveMaxConcurrent_pos config
  cases hb : filteredBehaviors config with
  | none =>
    have hzero : windowCount 0 (effectiveMaxConcurrent config) = 0 := by
      unfold windowCount
      exact Nat.div_eq_of_lt (by omega)
    simp [createBatchExperiments, enumeratedSpecs, hb, emptyBatchOutput, hzero]
  | some bs =>
    simp only [createBatchExperiments, enumeratedSpecs, hb]
    rw [runWindows_writeEvents_of_truthy config env _ htr _ _ _ (le_refl _),
      runWindows_windowStates config env _ hmc _ _ _ (le_refl _)]
    have hc := countP_checkpoint_pairs (config.outputPath.getD "") (dialoguePathOf config)
      ((List.range (windowCount ((enumerateAllExperiments bs (groupSizesOf config)
          config.scenarios).enum.length) (effectiveMaxConcurrent config))).map
        (fun k => [] ++ (((enumerateAllExperiments bs (groupSizesOf config)
          config.scenarios).enum.take ((k + 1) * effectiveMaxConcurrent config)).map
            (unitResultOf config env))))
    simp only [List.length_map, List.length_range, List.enum_length] at hc ⊢
    exact hc

/-- C3, counterexample.  The claim says that excluding every behavior
makes the run fail with a SetupError ("no specs to run") before any
remote calls.  On the code it does not fail: `createBatchExperiments`
logs `All behaviors excluded` to the console and returns the empty batch
normally — no exception, no non-zero exit on this path — so the run
silently completes as a no-op (the caller then writes empty result
files). -/
theorem C3_exclude_all_completes_as_noop :
    createBatchExperiments excludeAllConfig allOkEnv = emptyBatchOutput ∧
    (createBatchExperiments excludeAllConfig allOkEnv).results = [] ∧
    (createBatchExperiments excludeAllConfig allOkEnv).provisionCalls = [] ∧
    (createBatchExperiments excludeAllConfig allOkEnv).writeEvents = [] := by
  refine ⟨?_, ?_, ?_, ?_⟩ <;> rfl

/-- C3 (amended): if the exclude filter removes every behavior, or the
include filter names a behavior absent from the universe (the two cases
in which `filteredBehaviors` is `none`), the run logs an error and
returns an empty result list before any remote calls and before any file
write — a silent no-op batch, not a SetupError. -/
theorem C3_empty_behavior_axis_returns_empty_batch (config : BatchConfig)
    (env : Nat → UnitEnv) (h : filteredBehaviors config = none) :
    createBatchExperiments config env = emptyBatchOutput := by
  simp [createBatchExperiments, h]

/-- Witness for C3: the all-excluded configuration indeed drives
`filteredBehaviors` to `none`, and the amended theorem applies. -/
theorem C3_empty_behavior_axis_returns_empty_batch_witness :
    filteredBehaviors excludeAllConfig = none ∧
    createBatchExperiments excludeAllConfig allOkEnv = emptyBatchOutput :=
  ⟨rfl, C3_empty_behavior_axis_returns_empty_batch excludeAllConfig allOkEnv rfl⟩

/-- `replace` is the identity when the pattern does not occur. -/
theorem replaceFirstAux_of_not_contains (pat rep : List Char) :
    ∀ s, containsSubstringAux pat s = false → replaceFirstAux pat rep s = s := by
  intro s
  induction s with
  | nil =>
    intro h
    simp only [containsSubstringAux] at h
    simp [replaceFirstAux, h]
  | cons c rest ih =>
    intro h
    simp only [containsSubstringAux, Bool.or_eq_false_iff] at h
    simp [replaceFirstAux, h.1, ih h.2]

/-- C10: if the configured output path does not contain the substring
`.json`, the derived dialogue path
(`outputPath.replace('.json', '_dialogues.txt')`) equals the output path
itself, so each checkpoint writes the JSON result list and then the
rendered dialogue text to the same file — the dialogue, written second,
overwrites the structured results. -/
theorem C10_dialogue_overwrites_json_when_no_json_suffix (config : BatchConfig)
    (env : Nat → UnitEnv) (p : String) (hp : config.outputPath = some p)
    (hne : p ≠ "") (hnc : containsSubstring p ".json" = false) :
    dialoguePathOf config = p ∧
    (createBatchExperiments config env).writeEvents =
      (createBatchExperiments config env).windowStates.flatMap (fun st =>
        ([⟨p, WriteArtifact.jsonResults st⟩,
          ⟨p, WriteArtifact.dialogueText (generateSimpleDialogue st)⟩] : List WriteEvent)) := by
  have hrep : stringReplaceFirst p ".json" "_dialogues.txt" = p := by
    unfold stringReplaceFirst
    rw [replaceFirstAux_of_not_contains _ _ _ hnc]
  have hdp : dialoguePathOf config = p := by
    simp [dialoguePathOf, hp, hrep, hne]
  refine ⟨hdp, ?_⟩
  have htr : outputPathTruthy config = true := by
    simp only [outputPathTruthy, hp]
    exact bne_iff_ne.mpr hne
  have hgd : config.outputPath.getD "" = p := by rw [hp]; rfl
  cases hb : filteredBehaviors config with
  | none => simp [createBatchExperiments, hb, emptyBatchOutput]
  | some bs =>
    simp only [createBatchExperiments, hb]
    rw [runWindows_writeEvents_of_truthy config env _ htr _ _ _ (le_refl _), hgd, hdp]

/-- The provisioning task always carries the spec's own behavior, group
size and scenario into its setup record, whichever step fails. -/
theorem provisionUnit_setup_eq (config : BatchConfig) (spec : ExperimentConfig)
    (u : UnitEnv) :
    (provisionUnit config spec u).1 =
      ⟨spec.behavior, spec.groupSize, spec.scenario,
        (provisionUnit config spec u).1.outcome⟩ := rfl

/-- Export-call log of a full run. -/
theorem createBatchExperiments_exportCalls (config : BatchConfig) (env : Nat → UnitEnv) :
    (createBatchExperiments config env).exportCalls =
      (enumeratedSpecs config).enum.filterMap (fun ie =>
        if unitExportCalled config env ie then some ie.1 else none) := by
  cases hb : filteredBehaviors config with
  | none => simp [createBatchExperiments, enumeratedSpecs, hb, emptyBatchOutput]
  | some bs =>
    simp only [createBatchExperiments, enumeratedSpecs, hb]
    rw [runWindows_exportCalls config env _ _ _ _ (le_refl _)]

/-- C5: for every unit of a window, a failed provisioning yields an
error-status `UnitResult` with the captured message, `N/A` ids and no
conversations field, and the exporter is never called for that unit; a
successful provisioning always yields a success-status result and an
export call, the conversation list falling back to empty when the export
call throws — export failure is never surfaced as unit failure. -/
theorem C5_provision_failure_isolated_export_failure_nonfatal (config : BatchConfig)
    (env : Nat → UnitEnv) (i : Nat) (e : ExperimentConfig)
    (hi : (enumeratedSpecs config).get? i = some e) :
    (∀ msg, (provisionUnit config e (env i)).1.outcome = .error msg →
      (createBatchExperiments config env).results.get? i = some
        ⟨e.behavior.name, e.groupSize, "N/A", "N/A", .error, some msg, none⟩ ∧
      i ∉ (createBatchExperiments config env).exportCalls) ∧
    (∀ eid cid, (provisionUnit config e (env i)).1.outcome = .ok (eid, cid) →
      (createBatchExperiments config env).results.get? i = some
        ⟨e.behavior.name, e.groupSize, eid, cid, .success, none,
          some (match exportExperimentConversations eid cid (env i).exportResponse with
            | .ok convos => convos
            | .error _ => [])⟩ ∧
      i ∈ (createBatchExperiments config env).exportCalls) := by
  have hres : (createBatchExperiments config env).results.get? i =
      some (unitResultOf config env (i, e)) := by
    rw [createBatchExperiments_results, List.get?_map, List.get?_enum, hi]
    rfl
  have hcalls := createBatchExperiments_exportCalls config env
  constructor
  · intro msg hout
    have hsetup : (provisionUnit config e (env i)).1 =
        ⟨e.behavior, e.groupSize, e.scenario, .error msg⟩ := by
      rw [provisionUnit_setup_eq, hout]
    have hunit : unitResultOf config env (i, e) =
        ⟨e.behavior.name, e.groupSize, "N/A", "N/A", .error, some msg, none⟩ := by
      unfold unitResultOf
      rw [hsetup]
      rfl
    have hncall : unitExportCalled config env (i, e) = false := by
      unfold unitExportCalled
      rw [hsetup]
      rfl
    refine ⟨by rw [hres, hunit], ?_⟩
    rw [hcalls]
    intro hmem
    rw [List.mem_filterMap] at hmem
    obtain ⟨ie, hie, hif⟩ := hmem
    by_cases hc : unitExportCalled config env ie
    · rw [if_pos hc] at hif
      injection hif with hif
      have hie2 : (enumeratedSpecs config).get? ie.1 = some ie.2 := by
        have := List.mem_enum_iff_get?.mp hie
        simpa using this
      rw [hif, hi] at hie2
      injection hie2 with hie2
      have : ie = (i, e) := by
        cases ie
        simp only at hif hie2
        rw [hif, hie2]
      rw [this, hncall] at hc
      cases hc
    · rw [if_neg hc] at hif
      cases hif
  · intro eid cid hout
    have hsetup : (provisionUnit config e (env i)).1 =
        ⟨e.behavior, e.groupSize, e.scenario, .ok (eid, cid)⟩ := by
      rw [provisionUnit_setup_eq, hout]
    have hunit : unitResultOf config env (i, e) =
        ⟨e.behavior.name, e.groupSize, eid, cid, .success, none,
          some (match exportExperimentConversations eid cid (env i).exportResponse with
            | .ok convos => convos
            | .error _ => [])⟩ := by
      unfold unitResultOf
      rw [hsetup]
      rfl
    have hcall : unitExportCalled config env (i, e) = true := by
      unfold unitExportCalled
      rw [hsetup]
      rfl
    refine ⟨by rw [hres, hunit], ?_⟩
    rw [hcalls, List.mem_filterMap]
    refine ⟨(i, e), ?_, by rw [if_pos hcall]⟩
    exact List.mk_mem_enum_iff_get?.mpr hi

/-- `createExperiment` succeeds exactly on an OK response. -/
theorem createExperiment_ok_iff (r : FetchOutcome ExperimentInfo) (v : ExperimentInfo) :
    createExperiment r = .ok v ↔ r = .ok v := by
  cases r <;> simp [createExperiment]

/-- `createCohort` succeeds exactly on an OK response. -/
theorem createCohort_ok_iff (r : FetchOutcome String) (c : String) :
    createCohort r = .ok c ↔ r = .ok c := by
  cases r <;> simp [createCohort]

/-- A successful provisioning outcome carries the experiment id assigned
by the server's `createExperiment` response and the cohort id assigned by
its `createCohort` response. -/
theorem provisionAttempt_ok_ids (config : BatchConfig) (spec : ExperimentConfig)
    (u : UnitEnv) (eid cid : String)
    (h : (provisionAttempt config spec u).1 = .ok (eid, cid)) :
    (∃ v : ExperimentInfo, u.createExperimentResponse = .ok v ∧ v.id = eid) ∧
    u.createCohortResponse = .ok cid := by
  unfold provisionAttempt at h
  rcases hce : createExperiment u.createExperimentResponse with e1 | v
  all_goals simp only [hce] at h
  · cases h
  rcases hcc : createCohort u.createCohortResponse with e2 | c
  all_goals simp only [hcc] at h
  · cases h
  rcases hcp : createParticipantAgent (u.addParticipantResponses 0) with e3 | pid
  all_goals simp only [hcp] at h
  · cases h
  rcases hap : (addPersonaAgents v.id c u 1 (participantPersonasOf spec)).1 with e4 | unitv
  all_goals simp only [hap] at h
  · cases h
  · injection h with h
    injection h with h1 h2
    exact ⟨⟨v, (createExperiment_ok_iff _ _).mp hce, h1⟩,
      (createCohort_ok_iff _ _).mp (h2 ▸ hcc)⟩

/-- C9: every `UnitResult` appended to the batch state has status
`error` exactly when its experiment and cohort ids are the literal
`N/A` (the server never hands out `N/A` as an id); error results carry an
error message and no conversations field, success results carry a
(possibly empty) conversations array and no error field. -/
theorem C9_result_shape_invariants (config : BatchConfig) (env : Nat → UnitEnv)
    (hexp : ∀ i (v : ExperimentInfo), (env i).createExperimentResponse = .ok v → v.id ≠ "N/A")
    (hcoh : ∀ i (c : String), (env i).createCohortResponse = .ok c → c ≠ "N/A") :
    ∀ r ∈ (createBatchExperiments config env).results,
      (r.status = .error ↔ r.experimentId = "N/A") ∧
      (r.status = .error ↔ r.cohortId = "N/A") ∧
      (r.status = .error → r.error ≠ none ∧ r.conversations = none) ∧
      (r.status = .success → r.conversations ≠ none ∧ r.error = none) := by
  intro r hr
  rw [createBatchExperiments_results] at hr
  rw [List.mem_map] at hr
  obtain ⟨ie, hie, hr⟩ := hr
  subst hr
  cases hout : (provisionUnit config ie.2 (env ie.1)).1.outcome with
  | error msg =>
    have hunit : unitResultOf config env ie =
        ⟨ie.2.behavior.name, ie.2.groupSize, "N/A", "N/A", .error, some msg, none⟩ := by
      unfold unitResultOf
      rw [provisionUnit_setup_eq, hout]
      rfl
    rw [hunit]
    refine ⟨by simp, by simp, fun _ => by simp, ?_⟩
    intro hs
    exact absurd hs (by simp)
  | ok idpair =>
    obtain ⟨eid, cid⟩ := idpair
    have hids := provisionAttempt_ok_ids config ie.2 (env ie.1) eid cid hout
    obtain ⟨⟨v, hv, hvid⟩, hc⟩ := hids
    have hne : eid ≠ "N/A" := hvid ▸ hexp ie.1 v hv
    have hnc : cid ≠ "N/A" := hcoh ie.1 cid hc
    have hunit : unitResultOf config env ie =
        ⟨ie.2.behavior.name, ie.2.groupSize, eid, cid, .success, none,
          some (match exportExperimentConversations eid cid (env ie.1).exportResponse with
            | .ok convos => convos
            | .error _ => [])⟩ := by
      unfold unitResultOf
      rw [provisionUnit_setup_eq, hout]
      rfl
    rw [hunit]
    refine ⟨?_, ?_, ?_, ?_⟩
    · exact ⟨fun h => absurd h (by simp), fun h => absurd h hne⟩
    · exact ⟨fun h => absurd h (by simp), fun h => absurd h hnc⟩
    · intro he
      exact absurd he (by simp)
    · intro _
      simp

/-- One renderer step appends exactly the result's block. -/
theorem dialogueLinesStep_eq (lines : List String) (result : ExperimentResult) :
    dialogueLinesStep lines result = lines ++ dialogueBlock result := by
  unfold dialogueLinesStep dialogueBlock
  by_cases hs : result.status != ResultStatus.success
  · simp [hs]
  · simp only [hs, if_false]
    match result.conversations with
    | none => simp
    | some convos =>
      by_cases hc : convos.isEmpty
      · simp [hc]
      · simp only [hc, if_false]
        have hmsg : ∀ (convo : ConversationExport) (ls : List String),
            convo.messages.foldl (fun ls msg => ls ++ [messageLine msg]) ls =
              ls ++ convo.messages.map messageLine :=
          fun convo ls => foldl_append_singleton messageLine convo.messages ls
        simp only [hmsg]
        rw [foldl_append_eq_flatMap (fun convo => convo.messages.map messageLine) convos]
        simp [List.append_assoc]

/-- The accumulated lines are the concatenation of the per-result
blocks. -/
theorem dialogueLines_eq_flatMap (results : List ExperimentResult) :
    dialogueLines results = results.flatMap dialogueBlock := by
  unfold dialogueLines
  suffices h : ∀ init, results.foldl dialogueLinesStep init = init ++ results.flatMap dialogueBlock by
    simpa using h []
  induction results with
  | nil => intro init; simp
  | cons r rest ih =>
    intro init
    simp only [List.foldl_cons, List.flatMap_cons, ih, dialogueLinesStep_eq,
      List.append_assoc]

/-- Skipped results contribute no lines. -/
theorem dialogueBlock_eq_nil_of_not_rendered (result : ExperimentResult)
    (h : renderedResult result = false) : dialogueBlock result = [] := by
  unfold renderedResult at h
  unfold dialogueBlock
  rw [Bool.and_eq_false_iff] at h
  rcases h with h | h
  · have : result.status != ResultStatus.success := by
      simp only [bne_iff_ne, ne_eq]
      simpa using h
    simp [this]
  · match hc : result.conversations with
    | none => simp [hc]
    | some convos =>
      rw [hc] at h
      have hce : convos.isEmpty = true := by simpa using h
      by_cases hs : result.status != ResultStatus.success
      · simp [hs]
      · simp [hs, hc, hce]

/-- C8: the dialogue renderer is a pure, deterministic function of the
result list (in this embedding it is a function, so identical inputs give
byte-identical output definitionally): it renders exactly one block —
header, experiment-id line and message lines — per result with status
`success` and a nonempty conversation list, and produces no output for
any other result (rendering a list equals rendering its rendered-only
filter). -/
theorem C8_dialogue_renderer_blocks_and_skips (results : List ExperimentResult) :
    generateSimpleDialogue results =
      String.intercalate "\n" (results.flatMap dialogueBlock) ∧
    generateSimpleDialogue results =
      generateSimpleDialogue (results.filter renderedResult) := by
  have hflat : ∀ rs : List ExperimentResult,
      rs.flatMap dialogueBlock = (rs.filter renderedResult).flatMap dialogueBlock := by
    intro rs
    induction rs with
    | nil => rfl
    | cons r rest ih =>
      by_cases hr : renderedResult r
      · simp only [List.filter_cons, hr, if_true, List.flatMap_cons, ih]
      · have hb := dialogueBlock_eq_nil_of_not_rendered r (by simpa using hr)
        simp only [List.filter_cons, hr, Bool.false_eq_true, if_false,
          List.flatMap_cons, hb, List.nil_append, ih]
  constructor
  · unfold generateSimpleDialogue
    rw [dialogueLines_eq_flatMap]
  · unfold generateSimpleDialogue
    rw [dialogueLines_eq_flatMap, dialogueLines_eq_flatMap, hflat]

/-- Shape of an enumerated spec: group-size mode draws the size from the
fixed table, scenario mode from the scenario's `participant_count`. -/
theorem mem_enumeratedSpecs (config : BatchConfig) (spec : ExperimentConfig)
    (h : spec ∈ enumeratedSpecs config) :
    (spec.scenario = none ∧ spec.groupSize ∈ groupSizesOf config) ∨
    (∃ ss s, config.scenarios = some ss ∧ s ∈ ss ∧ spec.scenario = some s ∧
      spec.groupSize = s.participant_count) := by
  unfold enumeratedSpecs at h
  cases hb : filteredBehaviors config with
  | none => rw [hb] at h; cases h
  | some bs =>
    rw [hb] at h
    have h : spec ∈ enumerateAllExperiments bs (groupSizesOf config) config.scenarios := h
    cases hsc : config.scenarios with
    | none =>
      rw [hsc] at h
      rw [(enumerateAllExperiments_eq bs (groupSizesOf config)).2 none (Or.inl rfl)] at h
      rw [List.mem_flatMap] at h
      obtain ⟨b, _, hm⟩ := h
      rw [List.mem_map] at hm
      obtain ⟨g, hg, rfl⟩ := hm
      exact Or.inl ⟨rfl, hg⟩
    | some ss =>
      rw [hsc] at h
      by_cases hse : ss = []
      · subst hse
        rw [(enumerateAllExperiments_eq bs (groupSizesOf config)).2 (some []) (Or.inr rfl)] at h
        rw [List.mem_flatMap] at h
        obtain ⟨b, _, hm⟩ := h
        rw [List.mem_map] at hm
        obtain ⟨g, hg, rfl⟩ := hm
        exact Or.inl ⟨rfl, hg⟩
      · rw [(enumerateAllExperiments_eq bs (groupSizesOf config)).1 ss hse] at h
        rw [List.mem_flatMap] at h
        obtain ⟨b, _, hm⟩ := h
        rw [List.mem_map] at hm
        obtain ⟨sc, hsm, rfl⟩ := hm
        exact Or.inr ⟨ss, sc, rfl, hsm, rfl, rfl⟩

/-- The persona loop issues one participant call per persona, in order,
stopping at the first failure: its call log is a prefix of the planned
persona calls, and covers all of them when the loop succeeds. -/
theorem addPersonaAgents_calls (eid cid : String) (u : UnitEnv) :
    ∀ (personas : List ParticipantPersona) (start : Nat),
      ∃ j, j ≤ personas.length ∧
        (addPersonaAgents eid cid u start personas).2 =
          (personas.map (personaCall eid cid)).take j ∧
        (∀ unitv, (addPersonaAgents eid cid u start personas).1 = .ok unitv →
          j = personas.length) := by
  intro personas
  induction personas with
  | nil =>
    intro start
    exact ⟨0, by simp, by simp [addPersonaAgents], fun _ _ => by simp⟩
  | cons p rest ih =>
    intro start
    cases hr : createParticipantAgent (u.addParticipantResponses start) with
    | error e =>
      refine ⟨1, by simp, ?_, ?_⟩
      · simp [addPersonaAgents, hr, List.take_succ_cons]
      · intro unitv habs
        rw [show (addPersonaAgents eid cid u start (p :: rest)).1 =
            Except.error e by simp [addPersonaAgents, hr]] at habs
        cases habs
    | ok pid =>
      obtain ⟨j, hj, hc, hlen⟩ := ih (start + 1)
      refine ⟨j + 1, by simp; omega, ?_, ?_⟩
      · simp [addPersonaAgents, hr, hc, List.take_succ_cons]
      · intro unitv hok
        have hok' : (addPersonaAgents eid cid u (start + 1) rest).1 = .ok unitv := by
          simpa [addPersonaAgents, hr] using hok
        rw [hlen unitv hok']
        simp

/-- C6: for every enumerated unit (and any server behavior), provisioning
performs the four steps in order — create experiment, create cohort with
`minParticipantsPerCohort` and `maxParticipantsPerCohort` both exactly
`groupSize + 1`, add one facilitator agent from the behavior's
prompt/model, then add exactly `groupSize` participant agents (generic
personas in group-size mode, scenario-derived personas in scenario mode,
assuming each scenario's `participant_count` matches its participant
list) — and any step's failure aborts the remaining steps: the issued
calls are always a prefix of the planned sequence, the full sequence
exactly when provisioning succeeds. -/
theorem C6_four_sequential_provisioning_steps (config : BatchConfig)
    (spec : ExperimentConfig) (u : UnitEnv)
    (hspec : spec ∈ enumeratedSpecs config)
    (hwf : ∀ ss, config.scenarios = some ss →
      ∀ s ∈ ss, s.participant_count = s.participants.length) :
    (participantPersonasOf spec).length = spec.groupSize ∧
    ∃ experimentId cohortId k, 1 ≤ k ∧ k ≤ 3 + spec.groupSize ∧
      (provisionUnit config spec u).2 =
        (plannedProvisionCalls config spec experimentId cohortId).take k ∧
      (∀ a b, (provisionUnit config spec u).1.outcome = .ok (a, b) →
        k = 3 + spec.groupSize ∧ a = experimentId ∧ b = cohortId) := by
  have hplen : (participantPersonasOf spec).length = spec.groupSize := by
    rcases mem_enumeratedSpecs config spec hspec with ⟨hnone, hg⟩ |
      ⟨ss, sc, hss, hsm, hsceq, hgs⟩
    · have hg6 : spec.groupSize ≤ 6 := by
        by_cases htm : config.testMode <;> simp [groupSizesOf, htm] at hg <;> omega
      simp only [participantPersonasOf, hnone, generateParticipantPersonas]
      rw [List.length_take]
      rw [show basePersonas.length = 6 from rfl]
      omega
    · simp only [participantPersonasOf, hsceq, scenarioToPersonas]
      rw [List.length_map, List.enum_length, hgs, hwf ss hss sc hsm]
  refine ⟨hplen, ?_⟩
  have h2 : (provisionUnit config spec u).2 = (provisionAttempt config spec u).2 := rfl
  have h1 : (provisionUnit config spec u).1.outcome = (provisionAttempt config spec u).1 := rfl
  rcases hce : createExperiment u.createExperimentResponse with e1 | v
  · have houtcome : (provisionAttempt config spec u).1 = .error e1 := by
      simp only [provisionAttempt, hce]
    have hatt2 : (provisionAttempt config spec u).2 =
        (plannedProvisionCalls config spec "" "").take 1 := by
      simp only [provisionAttempt, hce, plannedProvisionCalls]
      rfl
    refine ⟨"", "", 1, by omega, by omega, by rw [h2, hatt2], ?_⟩
    intro a b hab
    rw [h1, houtcome] at hab
    cases hab
  · rcases hcc : createCohort u.createCohortResponse with e2 | c
    · have houtcome : (provisionAttempt config spec u).1 = .error e2 := by
        simp only [provisionAttempt, hce, hcc]
      have hatt2 : (provisionAttempt config spec u).2 =
          (plannedProvisionCalls config spec v.id "").take 2 := by
        simp only [provisionAttempt, hce, hcc, plannedProvisionCalls]
        rfl
      refine ⟨v.id, "", 2, by omega, by omega, by rw [h2, hatt2], ?_⟩
      intro a b hab
      rw [h1, houtcome] at hab
      cases hab
    · rcases hcp : createParticipantAgent (u.addParticipantResponses 0) with e3 | pid
      · have houtcome : (provisionAttempt config spec u).1 = .error e3 := by
          simp only [provisionAttempt, hce, hcc, hcp]
        have hatt2 : (provisionAttempt config spec u).2 =
            (plannedProvisionCalls config spec v.id c).take 3 := by
          simp only [provisionAttempt, hce, hcc, hcp, plannedProvisionCalls]
          rfl
        refine ⟨v.id, c, 3, by omega, by omega, by rw [h2, hatt2], ?_⟩
        intro a b hab
        rw [h1, houtcome] at hab
        cases hab
      · obtain ⟨j, hj, hcadds, hlen⟩ :=
          addPersonaAgents_calls v.id c u (participantPersonasOf spec) 1
        have hatt2 : (provisionAttempt config spec u).2 =
            (plannedProvisionCalls config spec v.id c).take (j + 3) := by
          rcases hap : (addPersonaAgents v.id c u 1 (participantPersonasOf spec)).1
            with e4 | uv
          all_goals
            simp only [provisionAttempt, hce, hcc, hcp, hap, plannedProvisionCalls]
          all_goals rw [hcadds]
          all_goals rfl
        refine ⟨v.id, c, j + 3, by omega, by omega, by rw [h2, hatt2], ?_⟩
        intro a b hab
        rw [h1] at hab
        rcases hap : (addPersonaAgents v.id c u 1 (participantPersonasOf spec)).1
          with e4 | uv
        · rw [show (provisionAttempt config spec u).1 = .error e4 by
            simp only [provisionAttempt, hce, hcc, hcp, hap]] at hab
          cases hab
        · rw [show (provisionAttempt config spec u).1 = .ok (v.id, c) by
            simp only [provisionAttempt, hce, hcc, hcp, hap]] at hab
          injection hab with hab
          injection hab with ha hb
          have hjlen := hlen uv hap
          refine ⟨by omega, ha.symm, hb.symm⟩

/-- Witness for C2 at the default configuration: the first window's
snapshot is the first three results, of length `min (1·3) 25`. -/
theorem C2_one_result_per_spec_witness :
    (createBatchExperiments sampleConfig allOkEnv).windowStates.get? 0 =
      some ((createBatchExperiments sampleConfig allOkEnv).results.take 3) ∧
    ((createBatchExperiments sampleConfig allOkEnv).results.take 3).length =
      min ((0 + 1) * effectiveMaxConcurrent sampleConfig)
        (enumeratedSpecs sampleConfig).length :=
  ⟨rfl, (C2_one_result_per_spec sampleConfig allOkEnv).2 0 _ rfl⟩

/-- Witness for C4 at the default configuration: 5 behaviors × group
sizes [2,3,4,5,6] in behavior-outer order, results in enumeration
order. -/
theorem C4_enumeration_and_result_order_witness :
    enumeratedSpecs sampleConfig = FACILITATOR_BEHAVIORS.flatMap (fun behavior =>
      ([2, 3, 4, 5, 6] : List Nat).map (fun groupSize => ⟨behavior, groupSize, none⟩)) ∧
    (createBatchExperiments sampleConfig allOkEnv).results =
      (enumeratedSpecs sampleConfig).enum.map (unitResultOf sampleConfig allOkEnv) :=
  ⟨((C4_enumeration_and_result_order sampleConfig allOkEnv).1
      FACILITATOR_BEHAVIORS rfl).2 (Or.inl rfl),
    (C4_enumeration_and_result_order sampleConfig allOkEnv).2⟩

/-- Witness for C5 at unit 0 of the default configuration under the
all-success environment. -/
theorem C5_provision_failure_isolated_witness :
    (createBatchExperiments sampleConfig allOkEnv).results.get? 0 = some
      ⟨"silent", 2, "exp_0", "cohort_0", .success, none, some []⟩ ∧
    0 ∈ (createBatchExperiments sampleConfig allOkEnv).exportCalls :=
  (C5_provision_failure_isolated_export_failure_nonfatal sampleConfig allOkEnv 0
    ⟨behaviorSilent, 2, none⟩ rfl).2 "exp_0" "cohort_0" rfl

/-- Witness for C6 at the (silent, 2) unit of the default
configuration. -/
theorem C6_four_sequential_provisioning_steps_witness :
    (participantPersonasOf ⟨behaviorSilent, 2, none⟩).length = 2 ∧
    ∃ experimentId cohortId k, 1 ≤ k ∧ k ≤ 3 + 2 ∧
      (provisionUnit sampleConfig ⟨behaviorSilent, 2, none⟩ (allOkEnv 0)).2 =
        (plannedProvisionCalls sampleConfig ⟨behaviorSilent, 2, none⟩
          experimentId cohortId).take k ∧
      (∀ a b, (provisionUnit sampleConfig ⟨behaviorSilent, 2, none⟩
          (allOkEnv 0)).1.outcome = .ok (a, b) →
        k = 3 + 2 ∧ a = experimentId ∧ b = cohortId) :=
  C6_four_sequential_provisioning_steps sampleConfig ⟨behaviorSilent, 2, none⟩
    (allOkEnv 0)
    (List.get?_mem (show (enumeratedSpecs sampleConfig).get? 0 =
      some ⟨behaviorSilent, 2, none⟩ from rfl))
    (fun ss h => by simp [sampleConfig] at h)

/-- Witness for C7 at the default configuration: 25 specs, budget 3,
⌈25/3⌉ = 9 checkpoints. -/
theorem C7_checkpoint_once_per_window_witness :
    (createBatchExperiments sampleConfig allOkEnv).writeEvents.countP isJsonWrite =
      windowCount (enumeratedSpecs sampleConfig).length
        (effectiveMaxConcurrent sampleConfig) ∧
    (createBatchExperiments sampleConfig allOkEnv).writeEvents.countP isDialogueWrite =
      windowCount (enumeratedSpecs sampleConfig).length
        (effectiveMaxConcurrent sampleConfig) ∧
    (createBatchExperiments sampleConfig allOkEnv).writeEvents.length =
      2 * windowCount (enumeratedSpecs sampleConfig).length
        (effectiveMaxConcurrent sampleConfig) :=
  C7_checkpoint_once_per_window sampleConfig allOkEnv "./batch_results.json" rfl
    (by decide)

/-- Witness for C9 at the first result of a constant-id run. -/
theorem C9_result_shape_invariants_witness :
    (sampleSuccessResult.status = .error ↔ sampleSuccessResult.experimentId = "N/A") ∧
    (sampleSuccessResult.status = .error ↔ sampleSuccessResult.cohortId = "N/A") ∧
    (sampleSuccessResult.status = .error →
      sampleSuccessResult.error ≠ none ∧ sampleSuccessResult.conversations = none) ∧
    (sampleSuccessResult.status = .success →
      sampleSuccessResult.conversations ≠ none ∧ sampleSuccessResult.error = none) :=
  C9_result_shape_invariants sampleConfig plainEnv
    (fun _ v hv => by injection hv with hv; rw [← hv]; decide)
    (fun _ c hc => by injection hc with hc; rw [← hc]; decide)
    sampleSuccessResult
    (List.get?_mem (show (createBatchExperiments sampleConfig plainEnv).results.get? 0 =
      some sampleSuccessResult from rfl))

/-- Witness for C10 at an output path without `.json`. -/
theorem C10_dialogue_overwrites_json_witness :
    dialoguePathOf noJsonConfig = "./batch_results.txt" ∧
    (createBatchExperiments noJsonConfig allOkEnv).writeEvents =
      (createBatchExperiments noJsonConfig allOkEnv).windowStates.flatMap (fun st =>
        ([⟨"./batch_results.txt", WriteArtifact.jsonResults st⟩,
          ⟨"./batch_results.txt",
            WriteArtifact.dialogueText (generateSimpleDialogue st)⟩] : List WriteEvent)) :=
  C10_dialogue_overwrites_json_when_no_json_suffix noJsonConfig allOkEnv
    "./batch_results.txt" rfl (by decide) (by decide)

end BatchExperiments
